/-
Verification of the Access-Bridge Flow Programmer (ABFP) against its
natural-language specification.

The definitions below are a shallow embedding of the C++ sources
src/agent-ovs/ovs/AccessFlowManager.cpp and src/agent-ovs/ovs/FlowUtils.cpp
(plus src/agent-ovs/ovs/include/FlowConstants.h).  Pure functions become
Lean functions; stateful switch-manager interaction becomes an explicit
list of operations (Op) applied to a state (SwState).  Machine integers
are Nat; IP-address strings are represented by their parse results
(the outcome of boost address::from_string / cidr_from_string): none
stands for an empty or unparseable string.
-/
import Mathlib

set_option maxHeartbeats 1000000

namespace Abfp

/-! ## Constants

Wire constants (ethernet types, IP protocol numbers, DNS port) are the
standard values used by eth.h / ip.h (headers not included in the file
set; values are the universal wire constants). -/

/-- Ethernet type for IPv4 (eth::type::IP). -/
def eth_type_IP : Nat := 0x0800

/-- Ethernet type for IPv6 (eth::type::IPV6). -/
def eth_type_IPV6 : Nat := 0x86DD

/-- Ethernet type for ARP (eth::type::ARP). -/
def eth_type_ARP : Nat := 0x0806

/-- Modelled from the spec: the pipeline table identifiers
(AccessFlowManager.h is not in the provided sources).  §4.1 of the spec
fixes the relative order DROP_LOG, SERVICE_BYPASS, GROUP_MAP,
SYS_SEC_GRP_IN/OUT, SEC_GROUP_IN/OUT, TAP, OUT, EXP_DROP; the code
iterates from SERVICE_BYPASS_TABLE_ID up to EXP_DROP_TABLE_ID and uses
literal table 0 for the DSCP flows, so DROP_LOG_TABLE_ID = 0. -/
def DROP_LOG_TABLE_ID : Nat := 0

/-- Table id of SERVICE_BYPASS (see DROP_LOG_TABLE_ID). -/
def SERVICE_BYPASS_TABLE_ID : Nat := 1

/-- Table id of GROUP_MAP (see DROP_LOG_TABLE_ID). -/
def GROUP_MAP_TABLE_ID : Nat := 2

/-- Table id of SYS_SEC_GRP_IN (see DROP_LOG_TABLE_ID). -/
def SYS_SEC_GRP_IN_TABLE_ID : Nat := 3

/-- Table id of SEC_GROUP_IN (see DROP_LOG_TABLE_ID). -/
def SEC_GROUP_IN_TABLE_ID : Nat := 4

/-- Table id of SYS_SEC_GRP_OUT (see DROP_LOG_TABLE_ID). -/
def SYS_SEC_GRP_OUT_TABLE_ID : Nat := 5

/-- Table id of SEC_GROUP_OUT (see DROP_LOG_TABLE_ID). -/
def SEC_GROUP_OUT_TABLE_ID : Nat := 6

/-- Table id of TAP (see DROP_LOG_TABLE_ID). -/
def TAP_TABLE_ID : Nat := 7

/-- Table id of OUT (see DROP_LOG_TABLE_ID). -/
def OUT_TABLE_ID : Nat := 8

/-- Table id of EXP_DROP (see DROP_LOG_TABLE_ID). -/
def EXP_DROP_TABLE_ID : Nat := 9

/-- Sentinel port number returned by the port mapper for an unresolved
interface (OFPP_NONE). -/
def OFPP_NONE : Nat := 0xffff

/-- flow::meta::access_meta::MASK (FlowConstants.h). -/
def access_meta_MASK : Nat := 0x0300

/-- flow::meta::access_meta::INGRESS_DIR (FlowConstants.h). -/
def access_meta_INGRESS_DIR : Nat := 0x100

/-- flow::meta::access_meta::EGRESS_DIR (FlowConstants.h). -/
def access_meta_EGRESS_DIR : Nat := 0x200

/-- flow::meta::access_out::POP_VLAN (FlowConstants.h). -/
def access_out_POP_VLAN : Nat := 0x1

/-- flow::meta::access_out::PUSH_VLAN (FlowConstants.h). -/
def access_out_PUSH_VLAN : Nat := 0x2

/-- flow::meta::access_out::UNTAGGED_AND_PUSH_VLAN (FlowConstants.h). -/
def access_out_UNTAGGED_AND_PUSH_VLAN : Nat := 0x3

/-- Modelled from the spec: flow::meta::out::MASK is extern (defined in
FlowConstants.cpp, not in the file set); §6 of the spec says the out
field is 8 bits. -/
def meta_out_MASK : Nat := 0xff

/-- Modelled from the spec: flow::meta::ACCESS_MASK is extern; it covers
the ACCESS_OUT byte together with the two ACCESS_META direction bits. -/
def ACCESS_MASK : Nat := 0x3ff

/-- Modelled from the spec: flow::meta::DROP_LOG is extern; §6 says it is
a single metadata bit outside the other advertised fields. -/
def meta_DROP_LOG : Nat := 0x800

/-- Modelled from the spec: opaque cookie tag flow::cookie::TABLE_DROP_FLOW
(extern; the concrete value is an opaque 64-bit tag). -/
def cookie_TABLE_DROP_FLOW : Nat := 1

/-- Modelled from the spec: opaque cookie tag flow::cookie::DNS_RESPONSE_V4. -/
def cookie_DNS_RESPONSE_V4 : Nat := 2

/-- Modelled from the spec: opaque cookie tag flow::cookie::DNS_RESPONSE_V6. -/
def cookie_DNS_RESPONSE_V6 : Nat := 3

/-- OFPUTIL_FF_SEND_FLOW_REM flow flag (opaque bit). -/
def OFPUTIL_FF_SEND_FLOW_REM : Nat := 1

/-- Conntrack state bit (FlowBuilder::CT_NEW; standard OVS ct_state bit). -/
def CT_NEW : Nat := 0x01

/-- Conntrack state bit CT_ESTABLISHED. -/
def CT_ESTABLISHED : Nat := 0x02

/-- Conntrack state bit CT_RELATED. -/
def CT_RELATED : Nat := 0x04

/-- Conntrack state bit CT_REPLY. -/
def CT_REPLY : Nat := 0x08

/-- Conntrack state bit CT_INVALID. -/
def CT_INVALID : Nat := 0x10

/-- Conntrack state bit CT_TRACKED. -/
def CT_TRACKED : Nat := 0x20

/-- ActionBuilder::CT_COMMIT conntrack action flag. -/
def CT_COMMIT : Nat := 1

/-- ActionBuilder::CaptureReason::POLICY_DENY. -/
def POLICY_DENY : Nat := 1

/-- modelgbp l4 TcpFlagsEnumT::CONST_UNSPECIFIED. -/
def tcpflag_UNSPECIFIED : Nat := 0

/-- modelgbp l4 TcpFlagsEnumT::CONST_FIN. -/
def tcpflag_FIN : Nat := 1

/-- modelgbp l4 TcpFlagsEnumT::CONST_SYN. -/
def tcpflag_SYN : Nat := 2

/-- modelgbp l4 TcpFlagsEnumT::CONST_RST. -/
def tcpflag_RST : Nat := 4

/-- modelgbp l4 TcpFlagsEnumT::CONST_ACK. -/
def tcpflag_ACK : Nat := 8

/-- modelgbp l4 TcpFlagsEnumT::CONST_ESTABLISHED. -/
def tcpflag_ESTABLISHED : Nat := 16

/-- modelgbp l2 EtherTypeEnumT::CONST_IPV4 (the wire ethertype value). -/
def ethertype_IPV4 : Nat := 0x0800

/-- modelgbp l2 EtherTypeEnumT::CONST_IPV6 (the wire ethertype value). -/
def ethertype_IPV6 : Nat := 0x86DD

/-- PolicyManager::MAX_POLICY_RULE_PRIORITY (declared outside the file
set; the concrete value is immaterial to the claims). -/
def MAX_POLICY_RULE_PRIORITY : Nat := 8192

/-! ## IP addresses and subnets

An address string is represented by its parse result: Addr.v4 / Addr.v6
carry the numeric address value. -/

/-- A parsed IP address (boost::asio::ip::address). -/
inductive Addr where
  | v4 (a : Nat)
  | v6 (a : Nat)
deriving DecidableEq

/-- address::is_v4. -/
def Addr.is_v4 : Addr → Bool
  | .v4 _ => true
  | .v6 _ => false

/-- address::is_v6. -/
def Addr.is_v6 : Addr → Bool
  | .v4 _ => false
  | .v6 _ => true

/-- address::is_unspecified (the all-zero address). -/
def Addr.is_unspecified : Addr → Bool
  | .v4 a => a == 0
  | .v6 a => a == 0

/-- network::subnet_t: an (address string, prefix length) pair; the string
is represented by its parse result (none = empty or unparseable). -/
def Subnet : Type := Option Addr × Nat

instance : DecidableEq Subnet := by
  unfold Subnet
  infer_instance

/-- network::service_port_t {address, prefixLen, proto, port}; the address
string is represented by its parse result. -/
structure ServicePort where
  addr : Option Addr
  prefixLen : Nat
  proto : Nat
  port : Nat
deriving DecidableEq

/-! ## RangeMask

Modelled from the spec: RangeMask.cpp is not in the provided file set
(FlowUtils.cpp only calls RangeMask::getMasks).  §2 of the spec defines
the RangeExpander as expanding an inclusive integer range [lo, hi] into
a minimal set of (value, mask) bit patterns over 16-bit values, whose
union matches exactly the integers of the range (§8, invariant 6). -/

/-- A (value, mask) pattern over 16-bit values (the Mask type of
RangeMask.h). -/
def Mask : Type := Nat × Nat

instance : DecidableEq Mask := by
  unfold Mask
  infer_instance

/-- The 16-bit mask with the low k bits wildcarded. -/
def mask16 (k : Nat) : Nat := 2 ^ 16 - 2 ^ k

/-- A value x matches a (value, mask) pattern when x AND mask equals the
pattern value. -/
def maskMatches (p : Mask) (x : Nat) : Bool := (x &&& p.2) == p.1

/-- Largest block exponent k ≤ f such that lo is 2^k-aligned and the block
[lo, lo + 2^k - 1] stays within hi. -/
def blockExp (lo hi : Nat) : Nat → Nat
  | 0 => 0
  | f + 1 =>
    if lo % 2 ^ (f + 1) = 0 ∧ lo + 2 ^ (f + 1) - 1 ≤ hi then f + 1
    else blockExp lo hi f

/-- Greedy decomposition of the inclusive range [lo, hi] into maximal
aligned (value, mask) blocks. -/
def rangeMasks (lo hi : Nat) : List Mask :=
  if h : hi < lo then []
  else
    (lo, mask16 (blockExp lo hi 16)) ::
      rangeMasks (lo + 2 ^ blockExp lo hi 16) hi
termination_by hi + 1 - lo
decreasing_by
  have hk : 0 < 2 ^ blockExp lo hi 16 := Nat.two_pow_pos _
  omega

/-- RangeMask::getMasks.  Modelled from the spec: both bounds present
expands the range; a single bound or equal bounds yield the exact-match
pattern; no bounds yield no masks. -/
def getMasks : Option Nat → Option Nat → List Mask
  | none, none => []
  | some s, none => [(s, mask16 0)]
  | none, some e => [(e, mask16 0)]
  | some s, some e => rangeMasks (min s e) (max s e)

/-! ## Flow entries and actions

A FlowEntry is an immutable record of match predicates, an action list, a
priority, a cookie and flags (FlowBuilder / ActionBuilder).  Matches are
optional typed fields; a builder call sets (or overwrites) the field. -/

/-- An OpenFlow action as produced by ActionBuilder. -/
inductive Action where
  | setReg (reg : Nat) (val : Nat)
  | setMetadata (val : Nat) (mask : Nat)
  | pushVlan
  | popVlan
  | regMove (srcReg : Nat) (dstReg : Nat)
  | outputReg (reg : Nat)
  | output (port : Nat)
  | controller
  | setDscp (v : Nat)
  | resubmit (port : Nat) (table : Nat)
  | conntrack (ctFlags : Nat) (zoneSrcReg : Nat) (zoneImm : Nat)
      (recircTable : Option Nat)
  | dropLog (table : Nat) (reason : Nat) (cookie : Nat)
  | permitLog (table : Nat) (dropTable : Nat) (cookie : Nat)
  | go (table : Nat)
deriving DecidableEq

/-- Register id used for MFF_VLAN_VID in regMove actions (opaque). -/
def MFF_VLAN_VID : Nat := 200

/-- Register id used for MFF_TUN_DST (opaque). -/
def MFF_TUN_DST : Nat := 201

/-- A flow entry under construction / built (FlowBuilder and the built
FlowEntry; equality is structural). -/
structure Flow where
  priority : Nat := 0
  cookie : Nat := 0
  ofFlags : Nat := 0
  tableHint : Option Nat := none
  inPortM : Option Nat := none
  reg0M : Option Nat := none
  reg2M : Option Nat := none
  ethTypeM : Option Nat := none
  protoM : Option Nat := none
  ipSrcM : Option (Addr × Nat) := none
  ipDstM : Option (Addr × Nat) := none
  tpSrcM : Option (Nat × Nat) := none
  tpDstM : Option (Nat × Nat) := none
  tcpFlagsM : Option (Nat × Nat) := none
  ctStateM : Option (Nat × Nat) := none
  tciM : Option (Nat × Nat) := none
  vlanM : Option Nat := none
  metadataM : Option (Nat × Nat) := none
  tunIdM : Option Nat := none
  outerIpSrcM : Option Addr := none
  outerIpDstM : Option Addr := none
  actions : List Action := []
deriving DecidableEq

/-- Append an action to a flow under construction. -/
def Flow.act (f : Flow) (a : Action) : Flow :=
  { f with actions := f.actions ++ [a] }

/-- A TLV table entry (FlowBuilder::tlv(optClass, optType, length, id)). -/
structure Tlv where
  optClass : Nat
  optType : Nat
  len : Nat
  tlvId : Nat
deriving DecidableEq

/-- An effect on the switch manager / conntrack-zone manager.  Handlers
are embedded as functions returning the ordered list of effects they
perform. -/
inductive Op where
  | writeFlow (key : String) (table : Nat) (flows : List Flow)
  | clearFlows (key : String) (table : Nat)
  | writeTlv (key : String) (tlvs : List Tlv)
  | eraseZone (uuid : String)
  | enableSync
deriving DecidableEq

/-- ovs_htonll byte-order conversion.  The conversion is a bijective
re-encoding of the 64-bit cookie that is invisible in this model
(cookies are opaque tags); it is therefore represented as the
identity. -/
def ovs_htonll (x : Nat) : Nat := x

/-! ## flowutils (FlowUtils.cpp) -/

/-- flowutils::ClassAction. -/
inductive ClassAction where
  | CA_DENY
  | CA_ALLOW
  | CA_REFLEX_FWD
  | CA_REFLEX_FWD_TRACK
  | CA_REFLEX_FWD_EST
  | CA_REFLEX_REV_TRACK
  | CA_REFLEX_REV_ALLOW
  | CA_REFLEX_REV_RELATED
deriving DecidableEq

/-- modelgbp gbpe L24Classifier, with every optional property an Option
(getX(default) is modelled as getD default). -/
structure L24Classifier where
  arpOpc : Option Nat := none
  etherT : Option Nat := none
  prot : Option Nat := none
  sFromPort : Option Nat := none
  sToPort : Option Nat := none
  dFromPort : Option Nat := none
  dToPort : Option Nat := none
  icmpType : Option Nat := none
  icmpCode : Option Nat := none
  tcpFlags : Option Nat := none
  connectionTracking : Option Nat := none
deriving DecidableEq

/-- modelgbp gbp ConnTrackEnumT::CONST_NORMAL. -/
def conntrack_NORMAL : Nat := 0

/-- modelgbp gbp ConnTrackEnumT::CONST_REFLEXIVE. -/
def conntrack_REFLEXIVE : Nat := 1

/-- flowutils::match_group: set priority and the reg0/reg2 group
registers (a zero vnid is not matched). -/
def match_group (f : Flow) (prio svnid dvnid : Nat) : Flow :=
  let f := { f with priority := prio }
  let f := if svnid ≠ 0 then { f with reg0M := some svnid } else f
  if dvnid ≠ 0 then { f with reg2M := some dvnid } else f

/-- flowutils::match_protocol: match ARP opcode (as proto), ethertype and
IP protocol from the classifier; returns the ethertype value (0 when
unspecified). -/
def match_protocol (f : Flow) (c : L24Classifier) : Flow × Nat :=
  let arpOpc := c.arpOpc.getD 0
  let ethT := c.etherT.getD 0
  let f := if arpOpc ≠ 0 then { f with protoM := some arpOpc } else f
  let f := if ethT ≠ 0 then { f with ethTypeM := some ethT } else f
  let f := match c.prot with
    | some p => { f with protoM := some p }
    | none => f
  (f, ethT)

/-- The wire TCP-flag bits corresponding to a modelgbp TcpFlags value
(body of flowutils::match_tcp_flags). -/
def tcpFlagsWire (tcpFlags : Nat) : Nat :=
  (if tcpFlags &&& tcpflag_FIN ≠ 0 then 0x01 else 0) |||
  (if tcpFlags &&& tcpflag_SYN ≠ 0 then 0x02 else 0) |||
  (if tcpFlags &&& tcpflag_RST ≠ 0 then 0x04 else 0) |||
  (if tcpFlags &&& tcpflag_ACK ≠ 0 then 0x10 else 0)

/-- flowutils::match_tcp_flags: match the wire bits of the given flags
value (mask equal to the value). -/
def match_tcp_flags (f : Flow) (tcpFlags : Nat) : Flow :=
  let w := tcpFlagsWire tcpFlags
  { f with tcpFlagsM := some (w, w) }

/-- The catch-all subnet ALL = ("", 0) used by compute_eff_sub. -/
def ALL_subnet : Subnet := (none, 0)

/-- flowutils::compute_eff_sub: the given subnets, or the catch-all when
absent. -/
def compute_eff_sub : Option (List Subnet) → List Subnet
  | some l => l
  | none => [ALL_subnet]

/-- A subnet viewed as a service port with port = 0, proto = 0
(network::append of subnets into a service-port list). -/
def subnetToSvcPort (s : Subnet) : ServicePort :=
  { addr := s.1, prefixLen := s.2, proto := 0, port := 0 }

/-- Family compatibility check shared by applyRemoteSub and
applyServicePort: a v4 address requires ethertype ARP or IPv4, a v6
address requires ethertype IPv6. -/
def familyOk (a : Addr) (ethType : Nat) : Bool :=
  match a with
  | .v4 _ => ethType == eth_type_ARP || ethType == eth_type_IP
  | .v6 _ => ethType == eth_type_IPV6

/-- flowutils::servicePort: match the destination address (defaulting the
prefix length to a host prefix for a specified address), and when the
port is nonzero also the protocol and destination port. -/
def servicePortApply (f : Flow) (a : Addr) (prefixLen proto dport : Nat) :
    Flow :=
  let pl := if prefixLen = 0 ∧ ¬ a.is_unspecified = true then
      (if a.is_v4 then 32 else 128) else prefixLen
  let f := { f with ipDstM := some (a, pl) }
  if dport = 0 then f
  else { f with protoM := some proto, tpDstM := some (dport, 0xffff) }

/-- Application of the source-subnet functor (make_flow_functor +
applyRemoteSub): an empty/unparseable subnet imposes no constraint; a
parsed one is applied when its family fits the ethertype, otherwise the
entry is skipped (none). -/
def applySrcSub (f : Flow) (ss : Subnet) (ethT : Nat) : Option Flow :=
  match ss.1 with
  | none => some f
  | some a =>
    if familyOk a ethT then some { f with ipSrcM := some (a, ss.2) }
    else none

/-- Application of the destination service-port functor (make_flow_functor
+ applyServicePort + servicePort), with the same family rule. -/
def applyDstSvc (f : Flow) (ds : ServicePort) (ethT : Nat) : Option Flow :=
  match ds.addr with
  | none => some f
  | some a =>
    if familyOk a ethT then
      some (servicePortApply f a ds.prefixLen ds.proto ds.port)
    else none

/-- flowutils::default_out_flow. -/
def default_out_flow : Flow :=
  (({ priority := 1, metadataM := some (0, meta_out_MASK) } : Flow).act
    (.outputReg 7))

/-- The conntrack-state match of a CA_REFLEX_REV_ALLOW entry:
tracked+established+reply, with new/invalid/related required clear. -/
def revAllowCtState : Nat × Nat :=
  (CT_TRACKED ||| CT_ESTABLISHED ||| CT_REPLY,
   CT_TRACKED ||| CT_ESTABLISHED ||| CT_REPLY ||| CT_INVALID ||| CT_NEW |||
     CT_RELATED)

/-- The conntrack-state match of a CA_REFLEX_REV_RELATED entry:
tracked+related+reply, with established/invalid/new required clear. -/
def revRelatedCtState : Nat × Nat :=
  (CT_TRACKED ||| CT_RELATED ||| CT_REPLY,
   CT_TRACKED ||| CT_RELATED ||| CT_REPLY ||| CT_ESTABLISHED |||
     CT_INVALID ||| CT_NEW)

/-- One iteration of the inner loop body of flowutils::add_classifier_entries
for a fixed (source subnet, destination service port, source port mask,
destination port mask, tcp-flag mask) combination; none when the entry is
skipped because an address family does not fit the ethertype.  The
CA_REFLEX_REV_RELATED case is handled before the port loops (see
add_classifier_entries) and yields none here. -/
def classifier_entry (c : L24Classifier) (act : ClassAction) (log : Bool)
    (nextTable currentTable dropTable priority flags cookie svnid dvnid : Nat)
    (isSystemRule : Bool) (ss : Subnet) (ds : ServicePort)
    (sm dm : Mask) (flagMask : Nat) : Option Flow :=
  let f : Flow := { cookie := ovs_htonll cookie, ofFlags := flags }
  let f := match act with
    | .CA_REFLEX_FWD_TRACK | .CA_REFLEX_REV_TRACK =>
        { f with ctStateM := some (0, CT_TRACKED) }
    | .CA_REFLEX_REV_ALLOW =>
        { f with ctStateM := some revAllowCtState }
    | _ => f
  let f := match_group f priority svnid dvnid
  let fe := match_protocol f c
  let f := fe.1
  let etht := fe.2
  let tcpFlags := c.tcpFlags.getD tcpflag_UNSPECIFIED
  match act with
  | .CA_DENY =>
    some (if log then
        (f.act (.dropLog currentTable POLICY_DENY cookie)).act (.go nextTable)
      else (f.act (.setMetadata 0 meta_DROP_LOG)).act (.go nextTable))
  | .CA_ALLOW | .CA_REFLEX_FWD_TRACK | .CA_REFLEX_FWD | .CA_REFLEX_FWD_EST =>
    let f := if tcpFlags ≠ tcpflag_UNSPECIFIED then match_tcp_flags f flagMask
      else f
    match applySrcSub f ss etht with
    | none => none
    | some f =>
      match applyDstSvc f ds etht with
      | none => none
      | some f =>
        let f := { f with tpSrcM := some sm }
        let f := if f.tpDstM.isNone then { f with tpDstM := some dm } else f
        let f := match act with
          | .CA_REFLEX_FWD_TRACK => f.act (.conntrack 0 6 0 (some nextTable))
          | .CA_REFLEX_FWD =>
            let f := { f with ctStateM := some (CT_TRACKED ||| CT_NEW, CT_TRACKED ||| CT_NEW) }
            let f := if ¬ isSystemRule then
                (let f := f.act (.conntrack CT_COMMIT 6 0 none)
                 if log then f.act (.permitLog currentTable dropTable cookie)
                 else f)
              else f
            f.act (.go nextTable)
          | .CA_REFLEX_FWD_EST =>
            let f := { f with ctStateM := some (CT_TRACKED ||| CT_ESTABLISHED, CT_TRACKED ||| CT_ESTABLISHED) }
            let f := if log then
                f.act (.permitLog currentTable dropTable cookie) else f
            f.act (.go nextTable)
          | _ =>
            let f := if log then
                f.act (.permitLog currentTable dropTable cookie) else f
            f.act (.go nextTable)
        some f
  | .CA_REFLEX_REV_TRACK =>
    some (f.act (.conntrack 0 6 0 (some nextTable)))
  | .CA_REFLEX_REV_ALLOW =>
    let f := if log then f.act (.permitLog currentTable dropTable cookie)
      else f
    some (f.act (.go nextTable))
  | .CA_REFLEX_REV_RELATED => none

/-- The CA_REFLEX_REV_RELATED entry of add_classifier_entries: for
ethertype IPv4 or IPv6 a protocol-only related-reply match, otherwise
nothing. -/
def rev_related_entry (c : L24Classifier)
    (flags cookie priority svnid dvnid nextTable : Nat) : Option Flow :=
  let ethT := c.etherT.getD 0
  if ethT = ethertype_IPV4 ∨ ethT = ethertype_IPV6 then
    let f : Flow := { ethTypeM := some ethT, cookie := ovs_htonll cookie, ofFlags := flags, ctStateM := some revRelatedCtState }
    let f := match_group f priority svnid dvnid
    some (f.act (.go nextTable))
  else none

/-- The ICMP special case of add_classifier_entries: protocol 1 with an
ICMP type or code set carries the type/code as exact port matches
instead of range expansion. -/
def icmpSpecial (c : L24Classifier) : Prop :=
  c.prot.getD 0 = 1 ∧ (c.icmpType.isSome ∨ c.icmpCode.isSome)

instance (c : L24Classifier) : Decidable (icmpSpecial c) := by
  unfold icmpSpecial
  infer_instance

/-- The source-port mask list of add_classifier_entries before padding. -/
def rawSrcPortMasks (c : L24Classifier) : List Mask :=
  if icmpSpecial c then
    match c.icmpType with
    | some t => [(t, 0xffff)]
    | none => []
  else getMasks c.sFromPort c.sToPort

/-- The destination-port mask list of add_classifier_entries before
padding. -/
def rawDstPortMasks (c : L24Classifier) : List Mask :=
  if icmpSpecial c then
    match c.icmpCode with
    | some t => [(t, 0xffff)]
    | none => []
  else getMasks c.dFromPort c.dToPort

/-- The source-port mask list, an empty range padded with the ignore
mask (0, 0). -/
def srcPortMasks (c : L24Classifier) : List Mask :=
  if rawSrcPortMasks c = [] then [((0 : Nat), (0 : Nat))]
  else rawSrcPortMasks c

/-- The destination-port mask list, padded like srcPortMasks. -/
def dstPortMasks (c : L24Classifier) : List Mask :=
  if rawDstPortMasks c = [] then [((0 : Nat), (0 : Nat))]
  else rawDstPortMasks c

/-- The tcp-flags expansion: a value containing ESTABLISHED becomes the
ACK and RST variants, any other value is used as is. -/
def tcpFlagsList (c : L24Classifier) : List Nat :=
  if c.tcpFlags.getD tcpflag_UNSPECIFIED &&& tcpflag_ESTABLISHED ≠ 0 then
    [tcpflag_ACK, tcpflag_RST]
  else [c.tcpFlags.getD tcpflag_UNSPECIFIED]

/-- The effective destination service-port list: the effective
destination subnets as service ports, followed by the named service
ports. -/
def effDestSvcPortsOf (destSub : Option (List Subnet))
    (destNamed : Option (List ServicePort)) : List ServicePort :=
  (compute_eff_sub destSub).map subnetToSvcPort ++ destNamed.getD []

/-- flowutils::add_classifier_entries (FlowUtils.cpp).  The source and
destination port masks come from the ICMP type/code (exact) or from the
range expansion, empty ranges are padded with the ignore mask (0, 0); a
tcp-flags value containing ESTABLISHED is expanded to the ACK and RST
variants; system rules match any group (svnid/dvnid zeroed). -/
def add_classifier_entries (c : L24Classifier) (act : ClassAction)
    (log : Bool) (sourceSub destSub : Option (List Subnet))
    (destNamed : Option (List ServicePort))
    (nextTable currentTable dropTable priority flags cookie svnid dvnid : Nat)
    (isSystemRule : Bool) : List Flow :=
  let svnid := if isSystemRule then 0 else svnid
  let dvnid := if isSystemRule then 0 else dvnid
  let srcPorts := srcPortMasks c
  let dstPorts := dstPortMasks c
  let tcpFlagsVec := tcpFlagsList c
  let effSourceSub := compute_eff_sub sourceSub
  let effDestSvcPorts := effDestSvcPortsOf destSub destNamed
  effSourceSub.flatMap fun ss =>
    effDestSvcPorts.flatMap fun ds =>
      if act = .CA_REFLEX_REV_RELATED then
        (rev_related_entry c flags cookie priority svnid dvnid nextTable).toList
      else
        srcPorts.flatMap fun sm =>
          dstPorts.flatMap fun dm =>
            tcpFlagsVec.filterMap fun flagMask =>
              classifier_entry c act log nextTable currentTable dropTable
                priority flags cookie svnid dvnid isSystemRule ss ds sm dm
                flagMask

/-- flowutils::add_l2classifier_entries: nothing when the classifier has
an IP protocol set, otherwise a single group + ethertype/ARP-opcode
match going to nextTable (with the deny / logging action variants). -/
def add_l2classifier_entries (c : L24Classifier) (act : ClassAction)
    (log : Bool)
    (nextTable currentTable dropTable priority flags cookie svnid dvnid : Nat)
    (isSystemRule : Bool) : List Flow :=
  if c.prot.isSome then []
  else
    let svnid := if isSystemRule then 0 else svnid
    let dvnid := if isSystemRule then 0 else dvnid
    let f : Flow := { cookie := ovs_htonll cookie, ofFlags := flags }
    let f := match_group f priority svnid dvnid
    let f := (match_protocol f c).1
    let f :=
      if log then
        if act = .CA_DENY then
          (f.act (.dropLog currentTable POLICY_DENY cookie)).act
            (.go nextTable)
        else
          (f.act (.permitLog currentTable dropTable cookie)).act
            (.go nextTable)
      else
        if act = .CA_DENY then
          (f.act (.setMetadata 0 meta_DROP_LOG)).act (.go nextTable)
        else f.act (.go nextTable)
    [f]

/-- flowutils::match_dhcp_req. -/
def match_dhcp_req (f : Flow) (v4 : Bool) : Flow :=
  let f := { f with protoM := some 17 }
  if v4 then
    { f with ethTypeM := some eth_type_IP, tpSrcM := some (68, 0xffff), tpDstM := some (67, 0xffff) }
  else
    { f with ethTypeM := some eth_type_IPV6, tpSrcM := some (546, 0xffff), tpDstM := some (547, 0xffff) }

/-! ## Policy rules and the per-rule expansion of handleSecGrpSetUpdate -/

/-- modelgbp gbp DirectionEnumT. -/
inductive Direction where
  | bidirectional
  | dirIn
  | dirOut
deriving DecidableEq

/-- A PolicyRule as consumed by handleSecGrpSetUpdate: direction, allow
and log flags, priority, L24 classifier, remote subnets and named
service ports.  ruleCookie is the id the handler obtains from
idGen.getId("l24classifierRule", classifier URI). -/
structure PolicyRule where
  direction : Direction
  allow : Bool
  log : Bool
  priority : Nat
  l24Classifier : L24Classifier
  remoteSubnets : List Subnet
  namedServicePorts : List ServicePort
  ruleCookie : Nat
deriving DecidableEq

/-- The flow entries contributed by one PolicyRule in
AccessFlowManager::handleSecGrpSetUpdate (the body of the rule loop):
first component the entries appended to the ingress-table list, second
the entries appended to the egress-table list. -/
def ruleFlows (addL34FlowsWithoutSubnet : Bool) (isSystemRule : Bool)
    (ingressTable egressTable afterIngressTable afterEgressTable : Nat)
    (secGrpSetId : Nat) (pc : PolicyRule) : List Flow × List Flow :=
  let cls := pc.l24Classifier
  let secGrpCookie := pc.ruleCookie
  let dir := pc.direction
  let bothEmpty := pc.remoteSubnets = [] ∧ pc.namedServicePorts = []
  let skipL34 : Bool := bothEmpty ∧ ¬ addL34FlowsWithoutSubnet
  let remoteSubs : Option (List Subnet) :=
    if ¬ bothEmpty then some pc.remoteSubnets else none
  let namedSvcPorts : Option (List ServicePort) :=
    if ¬ bothEmpty then some pc.namedServicePorts else none
  let act : ClassAction :=
    if pc.allow then
      if cls.connectionTracking.getD conntrack_NORMAL = conntrack_REFLEXIVE
      then .CA_REFLEX_FWD else .CA_ALLOW
    else .CA_DENY
  let log := pc.log
  let ff := OFPUTIL_FF_SEND_FLOW_REM
  if skipL34 then
    let inL :=
      if dir = .bidirectional ∨ dir = .dirIn then
        if act = .CA_DENY then
          add_l2classifier_entries cls act log EXP_DROP_TABLE_ID ingressTable
            EXP_DROP_TABLE_ID pc.priority ff secGrpCookie secGrpSetId 0
            isSystemRule
        else
          add_l2classifier_entries cls act log afterIngressTable ingressTable
            EXP_DROP_TABLE_ID pc.priority ff secGrpCookie secGrpSetId 0
            isSystemRule
      else []
    let outL :=
      if dir = .bidirectional ∨ dir = .dirOut then
        if act = .CA_DENY then
          add_l2classifier_entries cls act log EXP_DROP_TABLE_ID egressTable
            EXP_DROP_TABLE_ID pc.priority ff secGrpCookie secGrpSetId 0
            isSystemRule
        else
          add_l2classifier_entries cls act log afterEgressTable egressTable
            EXP_DROP_TABLE_ID pc.priority ff secGrpCookie secGrpSetId 0
            isSystemRule
      else []
    (inL, outL)
  else
    let inFromIn :=
      if dir = .bidirectional ∨ dir = .dirIn then
        (if act = .CA_DENY then
          add_classifier_entries cls act log remoteSubs none none
            EXP_DROP_TABLE_ID ingressTable EXP_DROP_TABLE_ID pc.priority ff
            secGrpCookie secGrpSetId 0 isSystemRule
        else
          add_classifier_entries cls act log remoteSubs none none
            afterIngressTable ingressTable EXP_DROP_TABLE_ID pc.priority ff
            secGrpCookie secGrpSetId 0 isSystemRule) ++
        (if act = .CA_REFLEX_FWD then
          add_classifier_entries cls .CA_REFLEX_FWD_TRACK log remoteSubs none
            none GROUP_MAP_TABLE_ID ingressTable EXP_DROP_TABLE_ID
            pc.priority ff secGrpCookie secGrpSetId 0 isSystemRule ++
          add_classifier_entries cls .CA_REFLEX_FWD_EST log remoteSubs none
            none afterIngressTable ingressTable EXP_DROP_TABLE_ID
            pc.priority ff secGrpCookie secGrpSetId 0 isSystemRule
        else [])
      else []
    let outFromIn :=
      if dir = .bidirectional ∨ dir = .dirIn then
        if act = .CA_REFLEX_FWD then
          add_classifier_entries cls .CA_REFLEX_REV_TRACK log none remoteSubs
            namedSvcPorts GROUP_MAP_TABLE_ID egressTable EXP_DROP_TABLE_ID
            pc.priority ff 0 secGrpSetId 0 isSystemRule ++
          add_classifier_entries cls .CA_REFLEX_REV_ALLOW log none remoteSubs
            namedSvcPorts afterEgressTable egressTable EXP_DROP_TABLE_ID
            pc.priority ff secGrpCookie secGrpSetId 0 isSystemRule ++
          add_classifier_entries cls .CA_REFLEX_REV_RELATED log none
            remoteSubs namedSvcPorts afterEgressTable egressTable
            EXP_DROP_TABLE_ID pc.priority ff secGrpCookie secGrpSetId 0
            isSystemRule
        else []
      else []
    let outFromOut :=
      if dir = .bidirectional ∨ dir = .dirOut then
        (if act = .CA_DENY then
          add_classifier_entries cls act log none remoteSubs namedSvcPorts
            EXP_DROP_TABLE_ID egressTable EXP_DROP_TABLE_ID pc.priority ff
            secGrpCookie secGrpSetId 0 isSystemRule
        else
          add_classifier_entries cls act log none remoteSubs namedSvcPorts
            afterEgressTable egressTable EXP_DROP_TABLE_ID pc.priority ff
            secGrpCookie secGrpSetId 0 isSystemRule) ++
        (if act = .CA_REFLEX_FWD then
          add_classifier_entries cls .CA_REFLEX_FWD_TRACK log none remoteSubs
            namedSvcPorts GROUP_MAP_TABLE_ID egressTable EXP_DROP_TABLE_ID
            pc.priority ff secGrpCookie secGrpSetId 0 isSystemRule ++
          add_classifier_entries cls .CA_REFLEX_FWD_EST log none remoteSubs
            namedSvcPorts afterEgressTable egressTable EXP_DROP_TABLE_ID
            pc.priority ff secGrpCookie secGrpSetId 0 isSystemRule
        else [])
      else []
    let inFromOut :=
      if dir = .bidirectional ∨ dir = .dirOut then
        if act = .CA_REFLEX_FWD then
          add_classifier_entries cls .CA_REFLEX_REV_TRACK log remoteSubs none
            none GROUP_MAP_TABLE_ID ingressTable EXP_DROP_TABLE_ID
            pc.priority ff 0 secGrpSetId 0 isSystemRule ++
          add_classifier_entries cls .CA_REFLEX_REV_ALLOW log remoteSubs none
            none afterIngressTable ingressTable EXP_DROP_TABLE_ID
            pc.priority ff secGrpCookie secGrpSetId 0 isSystemRule ++
          add_classifier_entries cls .CA_REFLEX_REV_RELATED log remoteSubs
            none none afterIngressTable ingressTable EXP_DROP_TABLE_ID
            pc.priority ff secGrpCookie secGrpSetId 0 isSystemRule
        else []
      else []
    (inFromIn ++ inFromOut, outFromIn ++ outFromOut)

/-! ## Endpoints, the agent environment, and the handlers -/

/-- An Endpoint::IPAddressMapping.  Address strings are represented by
their parse results: the outer Option is presence of the property, the
inner Option the parse outcome. -/
structure IPAddressMapping where
  mappedIP : Option (Option Addr) := none
  hasEgURI : Bool := false
  floatingIP : Option (Option Addr) := none
deriving DecidableEq

/-- An Endpoint as read from the endpoint manager.  ips carries the
cidr_from_string results of getIPs(), serviceIPs the address parse
results of getServiceIPs(). -/
structure Endpoint where
  accessInterface : Option String := none
  accessUplinkInterface : Option String := none
  accessIfaceVlan : Option Nat := none
  accessAllowUntagged : Bool := false
  ips : List (Option (Addr × Nat)) := []
  serviceIPs : List (Option Addr) := []
  dhcpV4 : Bool := false
  dhcpV6 : Bool := false
  interfaceName : Option String := none
  ipAddressMappings : List IPAddressMapping := []
  securityGroups : List String := []
deriving DecidableEq

/-- A learning-bridge interface (only the interface name is consumed by
lbIfaceUpdated). -/
structure LBIfaceInfo where
  interfaceName : Option String := none

/-- observer DropLogConfig (getDropLogEnable / getDropLogMode with their
defaults modelled as getD). -/
structure DropLogCfg where
  enable : Option Nat := none
  mode : Option Nat := none

/-- Modelled from the spec: DropLogModeEnumT::CONST_UNFILTERED_DROP_LOG
(modelgbp constant outside the file set; the value is an opaque tag). -/
def dropLogMode_UNFILTERED : Nat := 1

/-- observer DropFlowConfig: the optional match fields of a drop-flow
specification (addresses as parse results). -/
structure DropFlowCfg where
  ethTypeC : Option Nat := none
  innerSrc : Option Addr := none
  innerDst : Option Addr := none
  outerSrc : Option Addr := none
  outerDst : Option Addr := none
  tunnelId : Option Nat := none
  ipProto : Option Nat := none
  srcPort : Option Nat := none
  dstPort : Option Nat := none

/-- The read-only view of the agent collaborators consumed by the
handlers: endpoint store, port mapper, id generator (secGroupSet
namespace), conntrack-zone manager, learning-bridge manager, policy
store, and the drop-log configuration members of the flow manager. -/
structure Env where
  opflexDomain : String
  addL34FlowsWithoutSubnet : Bool
  conntrackEnabled : Bool
  endpoints : String → Option Endpoint
  portOf : String → Nat
  secGrpSetIdOf : String → Nat
  zoneOf : String → Option Nat
  lbTrunkRanges : String → List (Nat × Nat)
  secGrpSetEmpty : List String → Bool
  rulesOf : String → List PolicyRule
  epsForPort : String → List String
  setsForSecGrp : String → List (List String)
  lbIfaceOf : String → Option LBIfaceInfo
  epsByIfaceName : String → List String
  dropLogCfgOf : String → Option DropLogCfg
  dropFlowCfgOf : String → Option DropFlowCfg
  dropLogIface : String
  dropLogDst : Addr

/-- getSecGrpSetId: the canonical string of a security-group set is the
comma-joined URI list (the set iterates in sorted order; the list is
that order). -/
def getSecGrpSetId (secGrps : List String) : String :=
  String.intercalate "," secGrps

/-- The host prefix length of an exact FlowBuilder::ipSrc / ipDst address
match. -/
def hostPrefix (a : Addr) : Nat := if a.is_v4 then 32 else 128

/-- The numeric value of a v4 address (address::to_v4().to_ulong()). -/
def Addr.v4Value : Addr → Nat
  | .v4 a => a
  | .v6 _ => 0

/-- getPushVlanMeta: UNTAGGED_AND_PUSH_VLAN when the endpoint allows
untagged traffic, otherwise PUSH_VLAN. -/
def getPushVlanMeta (ep : Endpoint) : Nat :=
  if ep.accessAllowUntagged then access_out_UNTAGGED_AND_PUSH_VLAN
  else access_out_PUSH_VLAN

/-- flowBypassDhcpRequest (AccessFlowManager.cpp). -/
def flowBypassDhcpRequest (v4 skipPopVlan : Bool) (inport outport : Nat)
    (ep : Endpoint) : Flow :=
  let f : Flow :=
    if ep.accessIfaceVlan.isSome ∧ ¬ skipPopVlan then
      { priority := 201, inPortM := some inport }
    else { priority := 200, inPortM := some inport }
  let f := match_dhcp_req f v4
  let f := f.act (.setReg 7 outport)
  let f := match ep.accessIfaceVlan with
    | some v =>
      if ¬ skipPopVlan then
        ({ f with vlanM := some v }).act
          (.setMetadata (access_out_POP_VLAN ||| access_meta_EGRESS_DIR)
            ACCESS_MASK)
      else f
    | none => f
  let f :=
    if ep.accessIfaceVlan.isNone ∧ ¬ skipPopVlan then
      f.act (.setMetadata access_meta_EGRESS_DIR access_meta_MASK)
    else f
  let f :=
    if skipPopVlan then
      ({ f with tciM := some (0, 0x1fff) }).act
        (.setMetadata access_meta_EGRESS_DIR access_meta_MASK)
    else f
  f.act (.go TAP_TABLE_ID)

/-- flowBypassFloatingIP (AccessFlowManager.cpp). -/
def flowBypassFloatingIP (inport outport : Nat) (isIn skipPopVlan : Bool)
    (floatingIp : Addr) (ep : Endpoint) : Flow :=
  let f : Flow :=
    if ep.accessIfaceVlan.isSome ∧ ¬ skipPopVlan then
      { priority := 201, inPortM := some inport }
    else { priority := 200, inPortM := some inport }
  let f :=
    if floatingIp.is_v4 then { f with ethTypeM := some eth_type_IP }
    else { f with ethTypeM := some eth_type_IPV6 }
  let f :=
    if isIn then { f with ipSrcM := some (floatingIp, hostPrefix floatingIp) }
    else { f with ipDstM := some (floatingIp, hostPrefix floatingIp) }
  let f := f.act (.setReg 7 outport)
  let f := match ep.accessIfaceVlan with
    | some v =>
      if ¬ skipPopVlan then
        if isIn then
          (f.act (.setReg 5 v)).act
            (.setMetadata (getPushVlanMeta ep ||| access_meta_INGRESS_DIR)
              ACCESS_MASK)
        else
          ({ f with vlanM := some v }).act
            (.setMetadata (access_out_POP_VLAN ||| access_meta_EGRESS_DIR)
              ACCESS_MASK)
      else f
    | none => f
  let f :=
    if ep.accessIfaceVlan.isNone ∧ ¬ skipPopVlan then
      f.act (.setMetadata
        (if isIn then access_meta_INGRESS_DIR else access_meta_EGRESS_DIR)
        access_meta_MASK)
    else f
  let f :=
    if skipPopVlan then
      let f := if ¬ isIn then { f with tciM := some (0, 0x1fff) } else f
      f.act (.setMetadata
        (if isIn then access_meta_INGRESS_DIR else access_meta_EGRESS_DIR)
        access_meta_MASK)
    else f
  f.act (.go TAP_TABLE_ID)

/-- flowBypassServiceIP (AccessFlowManager.cpp): for every parsed
endpoint IP (as CIDR) and parsed service IP, a priority-10 ingress and
egress bypass pair. -/
def flowBypassServiceIP (accessPort uplinkPort : Nat) (ep : Endpoint) :
    List Flow :=
  ep.ips.flatMap fun cidrO =>
    match cidrO with
    | none => []
    | some cidr =>
      ep.serviceIPs.flatMap fun svcO =>
        match svcO with
        | none => []
        | some serviceAddr =>
          let ingress : Flow :=
            { priority := 10, ethTypeM := some eth_type_IP,
              inPortM := some uplinkPort,
              ipSrcM := some (serviceAddr, hostPrefix serviceAddr),
              ipDstM := some cidr }
          let ingress := ingress.act (.setReg 7 accessPort)
          let ingress := match ep.accessIfaceVlan with
            | some v =>
              (ingress.act (.setReg 5 v)).act
                (.setMetadata
                  (access_out_PUSH_VLAN ||| access_meta_INGRESS_DIR)
                  ACCESS_MASK)
            | none =>
              ingress.act
                (.setMetadata access_meta_INGRESS_DIR access_meta_MASK)
          let ingress := ingress.act (.go TAP_TABLE_ID)
          let egress : Flow :=
            { priority := 10, ethTypeM := some eth_type_IP,
              inPortM := some accessPort, ipSrcM := some cidr,
              ipDstM := some (serviceAddr, hostPrefix serviceAddr) }
          let egress := egress.act (.setReg 7 uplinkPort)
          let egress := match ep.accessIfaceVlan with
            | some v =>
              ({ egress with vlanM := some v }).act
                (.setMetadata
                  (access_out_POP_VLAN ||| access_meta_EGRESS_DIR)
                  ACCESS_MASK)
            | none =>
              ({ egress with tciM := some (0, 0x1fff) }).act
                (.setMetadata access_meta_EGRESS_DIR access_meta_MASK)
          let egress := egress.act (.go TAP_TABLE_ID)
          [ingress, egress]

/-- The trunk-vlan mask list computed at the top of handleEndpointUpdate
(the learning-bridge manager lookups are collapsed into
Env.lbTrunkRanges, which returns the concatenated trunk-vlan ranges of
the learning-bridge interfaces attached to the interface name). -/
def epTrunkMasks (env : Env) (ep : Endpoint) : List Mask :=
  match ep.interfaceName with
  | some n => (env.lbTrunkRanges n).flatMap fun r => getMasks (some r.1) (some r.2)
  | none => []

/-- AccessFlowManager::handleEndpointUpdate as the list of switch-manager
effects it performs. -/
def handleEndpointUpdate (env : Env) (uuid : String) : List Op :=
  match env.endpoints uuid with
  | none =>
    [.clearFlows uuid GROUP_MAP_TABLE_ID,
     .clearFlows uuid SERVICE_BYPASS_TABLE_ID] ++
    (if env.conntrackEnabled then [.eraseZone uuid] else [])
  | some ep =>
    let accessPort := match ep.accessInterface with
      | some i => env.portOf i
      | none => OFPP_NONE
    let uplinkPort := match ep.accessUplinkInterface with
      | some i => env.portOf i
      | none => OFPP_NONE
    let secGrpSetId := env.secGrpSetIdOf (getSecGrpSetId ep.securityGroups)
    let zoneId : Option Nat :=
      if env.conntrackEnabled then env.zoneOf uuid else none
    let trunkVlans := epTrunkMasks env ep
    let portsOk := accessPort ≠ OFPP_NONE ∧ uplinkPort ≠ OFPP_NONE
    let zActs : List Action := match zoneId with
      | some z => [.setReg 6 z]
      | none => []
    let el : List Flow :=
      if portsOk then
        let inFlow : Flow := match ep.accessIfaceVlan with
          | some v =>
            { priority := 100, inPortM := some accessPort, vlanM := some v,
              actions := zActs ++
                [.setReg 0 secGrpSetId, .setReg 7 uplinkPort,
                 .setMetadata
                   (access_out_POP_VLAN ||| access_meta_EGRESS_DIR)
                   ACCESS_MASK,
                 .go SYS_SEC_GRP_OUT_TABLE_ID] }
          | none =>
            { priority := 100, inPortM := some accessPort,
              tciM := some (0, 0x1fff),
              actions := zActs ++
                [.setReg 0 secGrpSetId, .setReg 7 uplinkPort,
                 .setMetadata access_meta_EGRESS_DIR access_meta_MASK,
                 .go SYS_SEC_GRP_OUT_TABLE_ID] }
        let untaggedVariant : List Flow :=
          if ep.accessAllowUntagged ∧ ep.accessIfaceVlan.isSome then
            [{ priority := 99, inPortM := some accessPort,
               tciM := some (0, 0x1fff),
               actions := zActs ++
                 [.setReg 0 secGrpSetId, .setReg 7 uplinkPort,
                  .setMetadata access_meta_EGRESS_DIR access_meta_MASK,
                  .go SYS_SEC_GRP_OUT_TABLE_ID] }]
          else []
        let dhcpUntagged := ep.accessAllowUntagged ∧ ep.accessIfaceVlan.isSome
        let dhcpFlows : List Flow :=
          (if ep.dhcpV4 then
            [flowBypassDhcpRequest true false accessPort uplinkPort ep] ++
            (if dhcpUntagged then
              [flowBypassDhcpRequest true true accessPort uplinkPort ep]
            else [])
          else []) ++
          (if ep.dhcpV6 then
            [flowBypassDhcpRequest false false accessPort uplinkPort ep] ++
            (if dhcpUntagged then
              [flowBypassDhcpRequest false true accessPort uplinkPort ep]
            else [])
          else [])
        let outFlow : Flow := match ep.accessIfaceVlan with
          | some v =>
            { priority := 100, inPortM := some uplinkPort,
              actions := zActs ++
                [.setReg 0 secGrpSetId, .setReg 7 accessPort, .setReg 5 v,
                 .setMetadata
                   (getPushVlanMeta ep ||| access_meta_INGRESS_DIR)
                   ACCESS_MASK,
                 .go SYS_SEC_GRP_IN_TABLE_ID] }
          | none =>
            { priority := 100, inPortM := some uplinkPort,
              actions := zActs ++
                [.setReg 0 secGrpSetId, .setReg 7 accessPort,
                 .setMetadata access_meta_INGRESS_DIR access_meta_MASK,
                 .go SYS_SEC_GRP_IN_TABLE_ID] }
        let trunkFlows : List Flow := trunkVlans.flatMap fun m =>
          let tci := 0x1000 ||| m.1
          let mask := 0x1000 ||| (0xfff &&& m.2)
          [{ priority := 500, inPortM := some accessPort,
             tciM := some (tci, mask), actions := [.output uplinkPort] },
           { priority := 500, inPortM := some uplinkPort,
             tciM := some (tci, mask), actions := [.output accessPort] }]
        let floatingFlows : List Flow :=
          ep.ipAddressMappings.flatMap fun ipm =>
            match ipm.mappedIP, ipm.hasEgURI with
            | some parsedMapped, true =>
              match parsedMapped with
              | none => []
              | some mappedIp =>
                let mk := fun (fip : Addr) =>
                  [flowBypassFloatingIP accessPort uplinkPort false false fip
                     ep,
                   flowBypassFloatingIP uplinkPort accessPort true false fip
                     ep] ++
                  (if ep.accessAllowUntagged ∧ ep.accessIfaceVlan.isSome then
                    [flowBypassFloatingIP accessPort uplinkPort false true fip
                       ep,
                     flowBypassFloatingIP uplinkPort accessPort true true fip
                       ep]
                  else [])
                match ipm.floatingIP with
                | some none => []
                | some (some fip) =>
                  if fip.is_v4 ≠ mappedIp.is_v4 then []
                  else if fip.is_unspecified then []
                  else mk fip
                | none => mk (Addr.v4 0)
            | _, _ => []
        [inFlow] ++ untaggedVariant ++ dhcpFlows ++ [outFlow] ++ trunkFlows
          ++ floatingFlows
      else []
    let skipServiceFlows : List Flow :=
      if portsOk then flowBypassServiceIP accessPort uplinkPort ep else []
    [.writeFlow uuid GROUP_MAP_TABLE_ID el,
     .writeFlow uuid SERVICE_BYPASS_TABLE_ID skipServiceFlows]

/-! ## Security-group set handling -/

/-- Split of a character list at every occurrence of the separator,
keeping empty tokens (the semantics of boost::algorithm::split with
is_any_of over a single character). -/
def splitChars (sep : Char) : List Char → List (List Char)
  | [] => [[]]
  | c :: cs =>
    if c = sep then [] :: splitChars sep cs
    else
      match splitChars sep cs with
      | t :: ts => (c :: t) :: ts
      | [] => [[c]]

/-- boost::algorithm::split of a string on a separator character. -/
def splitStr (s : String) (sep : Char) : List String :=
  (splitChars sep s.data).map fun l => String.mk l

/-- Substring containment on strings (std::string::find(needle) != npos). -/
def strContains (hay needle : String) : Bool :=
  decide (needle.data <:+: hay.data)

/-- VMM_DOMAIN_DN_PARTS (AccessFlowManager.cpp). -/
def VMM_DOMAIN_DN_PARTS : Nat := 4

/-- The systemSgName needle computed by checkIfSystemSecurityGroup
(factored out of the function body): _SystemSecurityGroup, prefixed by
the domain name when the OpFlex domain path has exactly
VMM_DOMAIN_DN_PARTS slash-separated parts whose third part has exactly
three dash-separated tokens. -/
def systemSgName (opflexDomain : String) : String :=
  let parts := splitStr opflexDomain '/'
  if parts.length = VMM_DOMAIN_DN_PARTS then
    let ctrlrParts := splitStr (parts.getD 2 "") '-'
    if ctrlrParts.length = 3 then
      (ctrlrParts.getD 2 "") ++ "_SystemSecurityGroup"
    else "_SystemSecurityGroup"
  else "_SystemSecurityGroup"

/-- AccessFlowManager::checkIfSystemSecurityGroup: the security-group URI
contains the system-group needle (uri.find(systemSgName) != npos). -/
def checkIfSystemSecurityGroup (opflexDomain uri : String) : Bool :=
  strContains uri (systemSgName opflexDomain)

/-- The (ingress, egress, after-ingress, after-egress) table choice made
per security group in handleSecGrpSetUpdate: system groups program the
SYS tables and continue to the user tables, others program the user
tables and continue to TAP. -/
def secGrpTables (systemSecGroup : Bool) : Nat × Nat × Nat × Nat :=
  if systemSecGroup then
    (SYS_SEC_GRP_IN_TABLE_ID, SYS_SEC_GRP_OUT_TABLE_ID,
     SEC_GROUP_IN_TABLE_ID, SEC_GROUP_OUT_TABLE_ID)
  else
    (SEC_GROUP_IN_TABLE_ID, SEC_GROUP_OUT_TABLE_ID, TAP_TABLE_ID,
     TAP_TABLE_ID)

/-- Accumulator of the four flow lists built by handleSecGrpSetUpdate,
plus the any-system-rule-configured flag. -/
structure SecGrpAccum where
  secGrpIn : List Flow := []
  secGrpOut : List Flow := []
  sysSecGrpIn : List Flow := []
  sysSecGrpOut : List Flow := []
  anySystemRule : Bool := false

/-- Processing of one security group inside handleSecGrpSetUpdate: its
rules are compiled with the tables selected by the system
classification and appended to the matching accumulator lists. -/
def secGrpAccumGroup (env : Env) (secGrpSetId : Nat) (acc : SecGrpAccum)
    (uri : String) : SecGrpAccum :=
  let rules := env.rulesOf uri
  let sys := checkIfSystemSecurityGroup env.opflexDomain uri
  let tbls := secGrpTables sys
  let ruleLists := rules.map
    (ruleFlows env.addL34FlowsWithoutSubnet sys tbls.1 tbls.2.1 tbls.2.2.1
      tbls.2.2.2 secGrpSetId)
  let inAdd := ruleLists.flatMap Prod.fst
  let outAdd := ruleLists.flatMap Prod.snd
  if sys then
    { acc with
      sysSecGrpIn := acc.sysSecGrpIn ++ inAdd
      sysSecGrpOut := acc.sysSecGrpOut ++ outAdd
      anySystemRule := acc.anySystemRule || ! rules.isEmpty }
  else
    { acc with
      secGrpIn := acc.secGrpIn ++ inAdd
      secGrpOut := acc.secGrpOut ++ outAdd }

/-- ActionBuilder::CaptureReason::TABLE_DROP (the default dropLog
reason). -/
def CAPTURE_TABLE_DROP : Nat := 0

/-- The priority-2 drop-log catcher installed in a SYS_SEC_GRP table
under the SystemDropLogFlow key. -/
def sysDropLogFlow (tableId : Nat) : Flow :=
  { priority := 2, cookie := cookie_TABLE_DROP_FLOW,
    ofFlags := OFPUTIL_FF_SEND_FLOW_REM,
    actions := [.dropLog tableId CAPTURE_TABLE_DROP 0,
                .go EXP_DROP_TABLE_ID] }

/-- AccessFlowManager::handleSecGrpSetUpdate as the list of
switch-manager effects. -/
def handleSecGrpSetUpdate (env : Env) (secGrps : List String)
    (secGrpsIdStr : String) : List Op :=
  if env.secGrpSetEmpty secGrps then
    [.clearFlows secGrpsIdStr SEC_GROUP_IN_TABLE_ID,
     .clearFlows secGrpsIdStr SEC_GROUP_OUT_TABLE_ID,
     .clearFlows secGrpsIdStr SYS_SEC_GRP_IN_TABLE_ID,
     .clearFlows secGrpsIdStr SYS_SEC_GRP_OUT_TABLE_ID]
  else
    let secGrpSetId := env.secGrpSetIdOf secGrpsIdStr
    let acc := secGrps.foldl (secGrpAccumGroup env secGrpSetId) {}
    [.writeFlow secGrpsIdStr SEC_GROUP_IN_TABLE_ID acc.secGrpIn,
     .writeFlow secGrpsIdStr SEC_GROUP_OUT_TABLE_ID acc.secGrpOut] ++
    (if acc.anySystemRule then
      [.writeFlow "SystemDropLogFlow" SYS_SEC_GRP_IN_TABLE_ID
         [sysDropLogFlow SYS_SEC_GRP_IN_TABLE_ID],
       .writeFlow "SystemDropLogFlow" SYS_SEC_GRP_OUT_TABLE_ID
         [sysDropLogFlow SYS_SEC_GRP_OUT_TABLE_ID],
       .writeFlow secGrpsIdStr SYS_SEC_GRP_IN_TABLE_ID acc.sysSecGrpIn,
       .writeFlow secGrpsIdStr SYS_SEC_GRP_OUT_TABLE_ID acc.sysSecGrpOut]
    else
      [.clearFlows secGrpsIdStr SYS_SEC_GRP_IN_TABLE_ID,
       .clearFlows secGrpsIdStr SYS_SEC_GRP_OUT_TABLE_ID,
       .clearFlows "SystemDropLogFlow" SYS_SEC_GRP_IN_TABLE_ID,
       .clearFlows "SystemDropLogFlow" SYS_SEC_GRP_OUT_TABLE_ID])

/-! ## Static flows and the remaining handlers -/

/-- flowEmptySecGroup: the reserved allow-all flow matching the
empty-set group id and going to TAP. -/
def flowEmptySecGroup (emptySecGrpSetId : Nat) : Flow :=
  (match_group {} MAX_POLICY_RULE_PRIORITY emptySecGrpSetId 0).act
    (.go TAP_TABLE_ID)

/-- AccessFlowManager::handleDropLogPortUpdate. -/
def handleDropLogPortUpdate (env : Env) : List Op :=
  if env.dropLogIface = "" ∨ ¬ env.dropLogDst.is_v4 = true then
    [.clearFlows "static" EXP_DROP_TABLE_ID]
  else
    let dropLogPort := env.portOf env.dropLogIface
    if dropLogPort ≠ OFPP_NONE then
      [.writeFlow "static" EXP_DROP_TABLE_ID
        [{ priority := 0, metadataM := some (meta_DROP_LOG, meta_DROP_LOG),
           actions := [.setReg MFF_TUN_DST env.dropLogDst.v4Value,
                       .output dropLogPort] }]]
    else []

/-- One of the static DNS-response punt flows of the TAP table. -/
def dnsPuntFlow (ck ethT proto : Nat) : Flow :=
  { priority := 2, cookie := ck, ethTypeM := some ethT,
    protoM := some proto, tpSrcM := some (53, 0xffff),
    metadataM := some (access_meta_INGRESS_DIR, access_meta_MASK),
    actions := [.controller, .go OUT_TABLE_ID] }

/-- The per-table priority-0 drop-log catch flow installed under the
DropLogFlow key. -/
def tableDropLogFlow (tableId : Nat) : Flow :=
  { priority := 0, cookie := cookie_TABLE_DROP_FLOW,
    ofFlags := OFPUTIL_FF_SEND_FLOW_REM,
    actions := [.dropLog tableId CAPTURE_TABLE_DROP 0,
                .go EXP_DROP_TABLE_ID] }

/-- AccessFlowManager::createStaticFlows as the list of switch-manager
effects. -/
def createStaticFlows (env : Env) : List Op :=
  let outFlows : List Flow :=
    [{ priority := 1, metadataM := some (access_out_POP_VLAN, meta_out_MASK),
       tciM := some (0x1000, 0x1000), actions := [.popVlan, .outputReg 7] },
     { priority := 1,
       metadataM := some (access_out_PUSH_VLAN, meta_out_MASK),
       actions := [.pushVlan, .regMove 5 MFF_VLAN_VID, .outputReg 7] },
     { priority := 1,
       metadataM := some (access_out_UNTAGGED_AND_PUSH_VLAN, meta_out_MASK),
       actions := [.outputReg 7, .pushVlan, .regMove 5 MFF_VLAN_VID,
                   .outputReg 7] },
     default_out_flow]
  let tlvFlows : List Tlv :=
    ((List.range 11).map fun i =>
      { optClass := 0xffff, optType := i, len := 4, tlvId := i }) ++
    [{ optClass := 0xffff, optType := 11, len := 16, tlvId := 11 },
     { optClass := 0xffff, optType := 12, len := 4, tlvId := 12 },
     { optClass := 0xffff, optType := 13, len := 4, tlvId := 13 },
     { optClass := 0xffff, optType := 14, len := 8, tlvId := 14 }]
  let dropLogDefault : List Flow :=
    [{ priority := 0, actions := [.go SERVICE_BYPASS_TABLE_ID] }]
  let emptyId := env.secGrpSetIdOf ""
  [.writeFlow "static" OUT_TABLE_ID outFlows,
   .writeTlv "DropLogStatic" tlvFlows,
   .writeFlow "static" DROP_LOG_TABLE_ID dropLogDefault] ++
  ((List.range (EXP_DROP_TABLE_ID - SERVICE_BYPASS_TABLE_ID)).map fun i =>
    .writeFlow "DropLogFlow" (SERVICE_BYPASS_TABLE_ID + i)
      [tableDropLogFlow (SERVICE_BYPASS_TABLE_ID + i)]) ++
  handleDropLogPortUpdate env ++
  [.writeFlow "static" SERVICE_BYPASS_TABLE_ID
     [{ priority := 1, actions := [.go GROUP_MAP_TABLE_ID] }],
   .writeFlow "static" TAP_TABLE_ID
     [dnsPuntFlow cookie_DNS_RESPONSE_V4 eth_type_IP 6,
      dnsPuntFlow cookie_DNS_RESPONSE_V6 eth_type_IPV6 6,
      dnsPuntFlow cookie_DNS_RESPONSE_V4 eth_type_IP 17,
      dnsPuntFlow cookie_DNS_RESPONSE_V6 eth_type_IPV6 17,
      { priority := 1, actions := [.go OUT_TABLE_ID] }],
   .writeFlow "static" SYS_SEC_GRP_IN_TABLE_ID
     [{ priority := 1, actions := [.go SEC_GROUP_IN_TABLE_ID] }],
   .writeFlow "static" SYS_SEC_GRP_OUT_TABLE_ID
     [{ priority := 1, actions := [.go SEC_GROUP_OUT_TABLE_ID] }],
   .writeFlow "static" SEC_GROUP_OUT_TABLE_ID [flowEmptySecGroup emptyId],
   .writeFlow "static" SEC_GROUP_IN_TABLE_ID [flowEmptySecGroup emptyId]]

/-- AccessFlowManager::handleDscpQosUpdate. -/
def handleDscpQosUpdate (env : Env) (iface : String) (dscp : Nat) :
    List Op :=
  let objIdV4 := iface ++ "ipv4"
  let objIdV6 := iface ++ "ipv6"
  [.clearFlows objIdV4 0, .clearFlows objIdV6 0] ++
  (if dscp = 0 then []
  else
    let ofPort := env.portOf iface
    [.writeFlow objIdV4 0
      [{ tableHint := some 0, priority := 65535,
         ethTypeM := some eth_type_IP, inPortM := some ofPort,
         actions := [.setDscp dscp, .resubmit ofPort 1] }],
     .writeFlow objIdV6 0
      [{ tableHint := some 0, priority := 65535,
         ethTypeM := some eth_type_IPV6, inPortM := some ofPort,
         actions := [.setDscp dscp, .resubmit ofPort 1] }]])

/-- The endpointUpdated listener callback: dropped while stopping,
otherwise (via the task queue) handleEndpointUpdate. -/
def endpointUpdatedOps (env : Env) (stopping : Bool) (uuid : String) :
    List Op :=
  if stopping then [] else handleEndpointUpdate env uuid

/-- The dscpQosUpdated listener callback. -/
def dscpQosUpdatedOps (env : Env) (stopping : Bool) (iface : String)
    (dscp : Nat) : List Op :=
  if stopping then [] else handleDscpQosUpdate env iface dscp

/-- The secGroupSetUpdated listener callback. -/
def secGroupSetUpdatedOps (env : Env) (stopping : Bool)
    (secGrps : List String) : List Op :=
  if stopping then []
  else handleSecGrpSetUpdate env secGrps (getSecGrpSetId secGrps)

/-- The secGroupUpdated listener callback: fans out to the affected
security-group sets. -/
def secGroupUpdatedOps (env : Env) (stopping : Bool) (uri : String) :
    List Op :=
  if stopping then []
  else (env.setsForSecGrp uri).flatMap (secGroupSetUpdatedOps env stopping)

/-- AccessFlowManager::handlePortStatusUpdate: re-drive the endpoints on
the port (through the guarded endpointUpdated callback) and recompute
the drop-log output when the drop-log interface changed. -/
def handlePortStatusUpdate (env : Env) (stopping : Bool)
    (portName : String) : List Op :=
  (env.epsForPort portName).flatMap (endpointUpdatedOps env stopping) ++
  (if portName = env.dropLogIface then handleDropLogPortUpdate env else [])

/-- The portStatusUpdate listener callback. -/
def portStatusUpdateOps (env : Env) (stopping : Bool) (portName : String) :
    List Op :=
  if stopping then [] else handlePortStatusUpdate env stopping portName

/-- AccessFlowManager::packetDropLogConfigUpdated (callback and handler
in one; checks the stopping flag itself). -/
def packetDropLogConfigUpdatedOps (env : Env) (stopping : Bool)
    (uri : String) : List Op :=
  if stopping then []
  else match env.dropLogCfgOf uri with
  | none =>
    [.writeFlow "DropLogConfig" DROP_LOG_TABLE_ID
      [{ priority := 2, actions := [.go SERVICE_BYPASS_TABLE_ID] }]]
  | some cfg =>
    if cfg.enable.getD 0 ≠ 0 then
      if cfg.mode.getD dropLogMode_UNFILTERED = dropLogMode_UNFILTERED then
        [.writeFlow "DropLogConfig" DROP_LOG_TABLE_ID
          [{ priority := 2,
             actions := [.setMetadata meta_DROP_LOG meta_DROP_LOG,
                         .go SERVICE_BYPASS_TABLE_ID] }]]
      else [.clearFlows "DropLogConfig" DROP_LOG_TABLE_ID]
    else
      [.writeFlow "DropLogConfig" DROP_LOG_TABLE_ID
        [{ priority := 2, actions := [.go SERVICE_BYPASS_TABLE_ID] }]]

/-- AccessFlowManager::packetDropFlowConfigUpdated (callback and handler
in one; checks the stopping flag itself). -/
def packetDropFlowConfigUpdatedOps (env : Env) (stopping : Bool)
    (uri : String) : List Op :=
  if stopping then []
  else match env.dropFlowCfgOf uri with
  | none => [.clearFlows uri DROP_LOG_TABLE_ID]
  | some cfg =>
    let f : Flow := { priority := 1 }
    let f := match cfg.ethTypeC with
      | some e => { f with ethTypeM := some e }
      | none => f
    let f := match cfg.innerSrc with
      | some a => { f with ipSrcM := some (a, hostPrefix a) }
      | none => f
    let f := match cfg.innerDst with
      | some a => { f with ipDstM := some (a, hostPrefix a) }
      | none => f
    let f := match cfg.outerSrc with
      | some a => { f with outerIpSrcM := some a }
      | none => f
    let f := match cfg.outerDst with
      | some a => { f with outerIpDstM := some a }
      | none => f
    let f := match cfg.tunnelId with
      | some t => { f with tunIdM := some t }
      | none => f
    let f := match cfg.ipProto with
      | some p => { f with protoM := some p }
      | none => f
    let f := match cfg.srcPort with
      | some p => { f with tpSrcM := some (p, 0xffff) }
      | none => f
    let f := match cfg.dstPort with
      | some p => { f with tpDstM := some (p, 0xffff) }
      | none => f
    let f := (f.act (.setMetadata meta_DROP_LOG meta_DROP_LOG)).act
      (.go SERVICE_BYPASS_TABLE_ID)
    [.writeFlow uri DROP_LOG_TABLE_ID [f]]

/-- AccessFlowManager::lbIfaceUpdated: no stopping guard of its own; it
re-drives the endpoints on the learning-bridge interface through the
guarded endpointUpdated callback. -/
def lbIfaceUpdatedOps (env : Env) (stopping : Bool) (uuid : String) :
    List Op :=
  match env.lbIfaceOf uuid with
  | none => []
  | some iface =>
    match iface.interfaceName with
    | some n => (env.epsByIfaceName n).flatMap (endpointUpdatedOps env stopping)
    | none => []

/-- The inbound listener events of the manager. -/
inductive Event where
  | endpointUpdated (uuid : String)
  | dscpQosUpdated (iface : String) (dscp : Nat)
  | secGroupSetUpdated (secGrps : List String)
  | configUpdated
  | secGroupUpdated (uri : String)
  | portStatusUpdate (portName : String) (portNo : Nat)
  | packetDropLogConfigUpdated (uri : String)
  | packetDropFlowConfigUpdated (uri : String)
  | lbIfaceUpdated (uuid : String)
  | rdConfigUpdated (uri : String)

/-- Dispatch of a listener event to its callback, collecting the
switch-manager effects the event eventually produces.  Each callback
replicates the stopping guard of its source counterpart (lbIfaceUpdated
has none; rdConfigUpdated is a no-op; configUpdated only enables
sync). -/
def callbackOps (env : Env) (stopping : Bool) : Event → List Op
  | .endpointUpdated uuid => endpointUpdatedOps env stopping uuid
  | .dscpQosUpdated iface dscp => dscpQosUpdatedOps env stopping iface dscp
  | .secGroupSetUpdated grps => secGroupSetUpdatedOps env stopping grps
  | .configUpdated => if stopping then [] else [.enableSync]
  | .secGroupUpdated uri => secGroupUpdatedOps env stopping uri
  | .portStatusUpdate portName _ => portStatusUpdateOps env stopping portName
  | .packetDropLogConfigUpdated uri =>
      packetDropLogConfigUpdatedOps env stopping uri
  | .packetDropFlowConfigUpdated uri =>
      packetDropFlowConfigUpdatedOps env stopping uri
  | .lbIfaceUpdated uuid => lbIfaceUpdatedOps env stopping uuid
  | .rdConfigUpdated _ => []

/-! ## Switch-manager state -/

/-- The externally visible state kept by the switch manager (flow sets
per (ownerKey, table), TLV sets per key) and the conntrack-zone
allocations. -/
structure SwState where
  flows : String → Nat → List Flow
  tlvs : String → List Tlv
  zones : String → Option Nat

/-- Application of one effect to the state. -/
def applyOp (s : SwState) : Op → SwState
  | .writeFlow k t fs =>
    { s with flows := fun k2 t2 =>
        if k2 = k ∧ t2 = t then fs else s.flows k2 t2 }
  | .clearFlows k t =>
    { s with flows := fun k2 t2 =>
        if k2 = k ∧ t2 = t then [] else s.flows k2 t2 }
  | .writeTlv k ts =>
    { s with tlvs := fun k2 => if k2 = k then ts else s.tlvs k2 }
  | .eraseZone u =>
    { s with zones := fun u2 => if u2 = u then none else s.zones u2 }
  | .enableSync => s

/-- Application of an effect list, in order. -/
def applyOps (s : SwState) (ops : List Op) : SwState := ops.foldl applyOp s

/-! ## Drop-log configuration (setDropLog) -/

/-- The drop-log configuration members of AccessFlowManager
(dropLogIface, dropLogDst, dropLogRemotePort). -/
structure DropCfgState where
  dropLogIface : String
  dropLogDst : Addr
  dropLogRemotePort : Nat
deriving DecidableEq

/-- AccessFlowManager::setDropLog.  The remoteIp string is represented
by its parse result (none = malformed).  The interface name is stored
before validation and the remote port after it, unconditionally; only
the tunnel destination is guarded by the v4 check. -/
def setDropLog (st : DropCfgState) (dropLogPort : String)
    (parsedRemoteIp : Option Addr) (remotePort : Nat) : DropCfgState :=
  let st := { st with dropLogIface := dropLogPort }
  let st := match parsedRemoteIp with
    | none => st
    | some tunDst =>
      if tunDst.is_v6 then st else { st with dropLogDst := tunDst }
  { st with dropLogRemotePort := remotePort }

/-! ## Garbage collection (cleanup) -/

/-- secGrpSetIdGarbageCb: an id string is alive when it denotes the
empty set, or when some endpoint still references the reconstructed
set. -/
def secGrpSetIdGarbageCb (env : Env) (str : String) : Bool :=
  let secGrps := (splitStr str ',').filter (fun u => u ≠ "")
  if secGrps = [] then true
  else ! env.secGrpSetEmpty secGrps

/-- IdGenerator::collectGarbage over one namespace: ids whose liveness
callback returns false are discarded. -/
def collectGarbage (alive : String → Bool) (m : String → Option Nat) :
    String → Option Nat :=
  fun k => if alive k then m k else none

/-! ## Theorems: RangeMask coverage (C7) -/

theorem blockExp_le (lo hi f : Nat) : blockExp lo hi f ≤ f := by
  induction f with
  | zero => simp [blockExp]
  | succ n ih =>
    rw [blockExp]
    split
    · exact Nat.le_refl _
    · exact Nat.le_succ_of_le ih

theorem blockExp_valid (lo hi f : Nat) (h : lo ≤ hi) :
    lo % 2 ^ blockExp lo hi f = 0 ∧ lo + 2 ^ blockExp lo hi f - 1 ≤ hi := by
  induction f with
  | zero =>
    constructor
    · simp [blockExp, Nat.mod_one]
    · simp [blockExp]; omega
  | succ n ih =>
    rw [blockExp]
    split
    · next hcond => exact hcond
    · exact ih

theorem and_mask16 (k x : Nat) (hk : k ≤ 16) (hx : x < 2 ^ 16) :
    x &&& mask16 k = 2 ^ k * (x / 2 ^ k) := by
  have hmask : mask16 k = (2 ^ (16 - k) - 1) <<< k := by
    rw [Nat.shiftLeft_eq, mask16, Nat.sub_one_mul, ← Nat.pow_add,
      Nat.sub_add_cancel hk]
  have hr : 2 ^ k * (x / 2 ^ k) = (x >>> k) <<< k := by
    rw [Nat.shiftRight_eq_div_pow, Nat.shiftLeft_eq, Nat.mul_comm]
  rw [hmask, hr]
  apply Nat.eq_of_testBit_eq
  intro j
  simp only [Nat.testBit_and, Nat.testBit_shiftLeft, Nat.testBit_shiftRight,
    Nat.testBit_two_pow_sub_one, ge_iff_le]
  by_cases hjk : k ≤ j
  · by_cases hj16 : j < 16
    · have h1 : j - k < 16 - k := by omega
      have h2 : k + (j - k) = j := by omega
      simp [hjk, h1, h2]
    · have hxj : x.testBit j = false := by
        apply Nat.testBit_lt_two_pow
        calc x < 2 ^ 16 := hx
          _ ≤ 2 ^ j := Nat.pow_le_pow_right (by omega) (by omega)
      have h2 : k + (j - k) = j := by omega
      simp [hjk, h2, hxj]
  · simp [hjk]

theorem maskMatches_mask16 (k v x : Nat) (hk : k ≤ 16) (hv : v % 2 ^ k = 0)
    (_hvlt : v < 2 ^ 16) (hx : x < 2 ^ 16) :
    maskMatches (v, mask16 k) x = true ↔ v ≤ x ∧ x < v + 2 ^ k := by
  have hpos : 0 < 2 ^ k := Nat.two_pow_pos k
  have hvq : 2 ^ k * (v / 2 ^ k) = v := by
    have hdvd : 2 ^ k ∣ v := Nat.dvd_of_mod_eq_zero hv
    exact Nat.mul_div_cancel' hdvd
  unfold maskMatches
  simp only [beq_iff_eq]
  rw [and_mask16 k x hk hx]
  constructor
  · intro h
    have hle : 2 ^ k * (x / 2 ^ k) ≤ x := by
      rw [Nat.mul_comm]
      exact Nat.div_mul_le_self x (2 ^ k)
    have hmod := Nat.div_add_mod x (2 ^ k)
    have hmlt : x % 2 ^ k < 2 ^ k := Nat.mod_lt _ hpos
    omega
  · rintro ⟨h1, h2⟩
    have hq : x / 2 ^ k = v / 2 ^ k := by
      apply Nat.div_eq_of_lt_le
      · rw [Nat.mul_comm, hvq]
        exact h1
      · rw [Nat.add_mul, Nat.one_mul, Nat.mul_comm, hvq]
        exact h2
    rw [hq, hvq]

theorem rangeMasks_cover_aux (n : Nat) :
    ∀ lo hi x, hi + 1 - lo ≤ n → lo ≤ hi → hi < 2 ^ 16 → x < 2 ^ 16 →
      ((∃ p ∈ rangeMasks lo hi, maskMatches p x = true) ↔
        lo ≤ x ∧ x ≤ hi) := by
  induction n with
  | zero => intro lo hi x hn hlohi _ _; omega
  | succ n ih =>
    intro lo hi x hn hlohi hhi hx
    have hnotlt : ¬ hi < lo := by omega
    rw [rangeMasks, dif_neg hnotlt]
    have hkle : blockExp lo hi 16 ≤ 16 := blockExp_le lo hi 16
    have hval := blockExp_valid lo hi 16 hlohi
    have hpos : 0 < 2 ^ blockExp lo hi 16 := Nat.two_pow_pos _
    have hhead : maskMatches (lo, mask16 (blockExp lo hi 16)) x = true ↔
        lo ≤ x ∧ x < lo + 2 ^ blockExp lo hi 16 :=
      maskMatches_mask16 _ lo x hkle hval.1 (by omega) hx
    by_cases htail : lo + 2 ^ blockExp lo hi 16 ≤ hi
    · have ihx := ih (lo + 2 ^ blockExp lo hi 16) hi x (by omega) htail hhi hx
      constructor
      · rintro ⟨p, hp, hm⟩
        rcases List.mem_cons.mp hp with rfl | hp2
        · have := hhead.mp hm
          omega
        · have := ihx.mp ⟨p, hp2, hm⟩
          omega
      · rintro ⟨h1, h2⟩
        by_cases hcase : x < lo + 2 ^ blockExp lo hi 16
        · exact ⟨(lo, mask16 (blockExp lo hi 16)), List.mem_cons_self _ _,
            hhead.mpr ⟨h1, hcase⟩⟩
        · obtain ⟨p, hp, hm⟩ := ihx.mpr ⟨by omega, h2⟩
          exact ⟨p, List.mem_cons_of_mem _ hp, hm⟩
    · have htl : rangeMasks (lo + 2 ^ blockExp lo hi 16) hi = [] := by
        rw [rangeMasks, dif_pos (by omega : hi < lo + 2 ^ blockExp lo hi 16)]
      rw [htl]
      constructor
      · rintro ⟨p, hp, hm⟩
        rcases List.mem_cons.mp hp with rfl | hp2
        · have := hhead.mp hm
          have h2 := hval.2
          exact ⟨this.1, by omega⟩
        · simp at hp2
      · rintro ⟨h1, h2⟩
        exact ⟨(lo, mask16 (blockExp lo hi 16)), List.mem_cons_self _ _,
          hhead.mpr ⟨h1, by omega⟩⟩

/-- C7: for every inclusive port range [lo, hi] with lo ≤ hi (16-bit
bounds), the (value, mask) pairs produced by RangeMask::getMasks cover
exactly the integers lo..hi: a 16-bit value matches some produced
pattern if and only if it lies in the range. -/
theorem c7_range_mask_cover (lo hi x : Nat) (hlohi : lo ≤ hi)
    (hhi : hi < 2 ^ 16) (hx : x < 2 ^ 16) :
    (∃ p ∈ getMasks (some lo) (some hi), maskMatches p x = true) ↔
      lo ≤ x ∧ x ≤ hi := by
  have hgm : getMasks (some lo) (some hi) = rangeMasks lo hi := by
    simp [getMasks, Nat.min_eq_left hlohi, Nat.max_eq_right hlohi]
  rw [hgm]
  exact rangeMasks_cover_aux (hi + 1 - lo) lo hi x (Nat.le_refl _) hlohi hhi
    hx

/-- Witness for C7 at the concrete range [1000, 1100] and value 1063. -/
theorem c7_range_mask_cover_witness :
    (1000 ≤ 1100 ∧ 1100 < 2 ^ 16 ∧ 1063 < 2 ^ 16) ∧
    ((∃ p ∈ getMasks (some 1000) (some 1100), maskMatches p 1063 = true) ↔
      1000 ≤ 1063 ∧ 1063 ≤ 1100) :=
  ⟨by decide,
   c7_range_mask_cover 1000 1100 1063 (by decide) (by decide) (by decide)⟩

/-! ## Theorems: system-group classification (C3) -/

/-- The domain token described by the spec: the third slash-separated
component of the OpFlex domain path, split further on dashes, taking
the third token (available only when the path has the expected VMM
shape). -/
def specDomainToken (opflexDomain : String) : Option String :=
  let parts := splitStr opflexDomain '/'
  if parts.length = 4 then
    let ctrlrParts := splitStr (parts.getD 2 "") '-'
    if ctrlrParts.length = 3 then some (ctrlrParts.getD 2 "") else none
  else none

/-- The needle the spec describes: the literal _SystemSecurityGroup,
prefixed by the domain token when one is derivable. -/
def specSystemSgName (opflexDomain : String) : String :=
  match specDomainToken opflexDomain with
  | some tok => tok ++ "_SystemSecurityGroup"
  | none => "_SystemSecurityGroup"

/-- C3: checkIfSystemSecurityGroup holds exactly when the URI contains
the (optionally domain-prefixed) literal _SystemSecurityGroup as a
substring, and handleSecGrpSetUpdate routes a system group to the
SYS_SEC_GRP tables with the user SEC_GROUP tables as after-tables,
every other group to the SEC_GROUP tables with TAP as after-table. -/
theorem c3_system_group_classification (opflexDomain uri : String) :
    (checkIfSystemSecurityGroup opflexDomain uri = true ↔
      (specSystemSgName opflexDomain).data <:+: uri.data) ∧
    secGrpTables true =
      (SYS_SEC_GRP_IN_TABLE_ID, SYS_SEC_GRP_OUT_TABLE_ID,
       SEC_GROUP_IN_TABLE_ID, SEC_GROUP_OUT_TABLE_ID) ∧
    secGrpTables false =
      (SEC_GROUP_IN_TABLE_ID, SEC_GROUP_OUT_TABLE_ID, TAP_TABLE_ID,
       TAP_TABLE_ID) := by
  refine ⟨?_, rfl, rfl⟩
  have hneedle : systemSgName opflexDomain = specSystemSgName opflexDomain := by
    unfold systemSgName specSystemSgName specDomainToken VMM_DOMAIN_DN_PARTS
    by_cases h1 : (splitStr opflexDomain '/').length = 4
    · rw [if_pos h1, if_pos h1]
      by_cases h2 :
        (splitStr ((splitStr opflexDomain '/').getD 2 "") '-').length = 3
      · rw [if_pos h2, if_pos h2]
      · rw [if_neg h2, if_neg h2]
    · rw [if_neg h1, if_neg h1]
  unfold checkIfSystemSecurityGroup strContains
  rw [hneedle]
  exact decide_eq_true_iff

/-! ## Theorems: setDropLog configuration rejection (C4) -/

/-- C4 counterexample: a setDropLog call with a malformed remote IP is
rejected, yet it still overwrites the stored drop-log interface name
(and the remote port), so the prior configuration is not left
untouched. -/
theorem c4_counterexample :
    (setDropLog
      { dropLogIface := "veth-old", dropLogDst := Addr.v4 1,
        dropLogRemotePort := 7 } "veth-new" none 99).dropLogIface ≠
      "veth-old" := by decide

/-- C4 (amended): a setDropLog call whose remote IP is malformed or a
valid IPv6 address leaves the stored tunnel destination untouched, but
unconditionally updates the drop-log interface name and the remote port
to the call arguments. -/
theorem c4_set_drop_log_rejected (st : DropCfgState) (port : String)
    (ip : Option Addr) (rp : Nat)
    (hrej : ip = none ∨ ∃ a, ip = some (Addr.v6 a)) :
    (setDropLog st port ip rp).dropLogDst = st.dropLogDst ∧
    (setDropLog st port ip rp).dropLogIface = port ∧
    (setDropLog st port ip rp).dropLogRemotePort = rp := by
  rcases hrej with rfl | ⟨a, rfl⟩ <;> simp [setDropLog, Addr.is_v6]

/-- Witness for the amended C4 at a concrete prior state and call. -/
theorem c4_set_drop_log_rejected_witness :
    ((none : Option Addr) = none ∨
      ∃ a, (none : Option Addr) = some (Addr.v6 a)) ∧
    ((setDropLog
        { dropLogIface := "veth-old", dropLogDst := Addr.v4 1,
          dropLogRemotePort := 7 } "veth-new" none 99).dropLogDst =
        Addr.v4 1 ∧
     (setDropLog
        { dropLogIface := "veth-old", dropLogDst := Addr.v4 1,
          dropLogRemotePort := 7 } "veth-new" none 99).dropLogIface =
        "veth-new" ∧
     (setDropLog
        { dropLogIface := "veth-old", dropLogDst := Addr.v4 1,
          dropLogRemotePort := 7 } "veth-new" none 99).dropLogRemotePort =
        99) :=
  ⟨Or.inl rfl,
   c4_set_drop_log_rejected
     { dropLogIface := "veth-old", dropLogDst := Addr.v4 1,
       dropLogRemotePort := 7 } "veth-new" none 99 (Or.inl rfl)⟩

/-! ## Theorems: events after stop are dropped (C8) -/

theorem flatMap_const_nil {α β : Type} (l : List α) :
    (l.flatMap fun _ => ([] : List β)) = [] := by
  induction l with
  | nil => rfl
  | cons x xs ih => simp [ih]

/-- C8: every listener event arriving after stop() (stopping flag set)
is dropped without producing any switch-manager effect: no flow write,
no TLV write, nothing. -/
theorem c8_events_after_stop_dropped (env : Env) (ev : Event) :
    callbackOps env true ev = [] := by
  cases ev with
  | lbIfaceUpdated uuid =>
    simp only [callbackOps, lbIfaceUpdatedOps]
    cases hlb : env.lbIfaceOf uuid with
    | none => simp
    | some iface =>
      cases hif : iface.interfaceName with
      | none => simp [hif]
      | some n =>
        simp [hif, endpointUpdatedOps, flatMap_const_nil]
  | _ =>
    simp [callbackOps, endpointUpdatedOps, dscpQosUpdatedOps,
      secGroupSetUpdatedOps, secGroupUpdatedOps, portStatusUpdateOps,
      packetDropLogConfigUpdatedOps, packetDropFlowConfigUpdatedOps]

/-! ## Theorems: rules without subnets and with a protocol emit nothing
(C9) -/

/-- C9: a policy rule with no remote subnets and no named service ports,
under addL34FlowsWithoutSubnet = false and a classifier with an IP
protocol set, contributes no flow entry at all (allow or deny, any
direction); indeed the L2-only path is taken and
add_l2classifier_entries emits nothing whenever the protocol is set. -/
theorem c9_no_subnet_protocol_rule_empty (sys : Bool)
    (ingT egT aftIn aftEg sgid : Nat) (r : PolicyRule)
    (hrem : r.remoteSubnets = []) (hnamed : r.namedServicePorts = [])
    (hprot : r.l24Classifier.prot.isSome = true) :
    ruleFlows false sys ingT egT aftIn aftEg sgid r = ([], []) ∧
    (∀ (c : L24Classifier) (act : ClassAction) (log : Bool)
      (nt ct dt pr fl ck sv dv : Nat) (isSys : Bool),
      c.prot.isSome = true →
      add_l2classifier_entries c act log nt ct dt pr fl ck sv dv isSys =
        []) := by
  have hl2 : ∀ (c : L24Classifier) (act : ClassAction) (log : Bool)
      (nt ct dt pr fl ck sv dv : Nat) (isSys : Bool),
      c.prot.isSome = true →
      add_l2classifier_entries c act log nt ct dt pr fl ck sv dv isSys =
        [] := by
    intro c act log nt ct dt pr fl ck sv dv isSys hc
    unfold add_l2classifier_entries
    rw [if_pos hc]
  refine ⟨?_, hl2⟩
  unfold ruleFlows
  simp only [hrem, hnamed, hl2 _ _ _ _ _ _ _ _ _ _ _ _ hprot]
  simp [hl2 r.l24Classifier _ _ _ _ _ _ _ _ _ _ _ hprot]

/-- A concrete deny rule with a TCP classifier and no subnets, used by
the C9 witness. -/
def c9TestRule : PolicyRule :=
  { direction := .dirIn, allow := false, log := false, priority := 10,
    l24Classifier := { etherT := some eth_type_IP, prot := some 6 },
    remoteSubnets := [], namedServicePorts := [], ruleCookie := 5 }

/-- Witness for C9 at a concrete deny rule carrying a TCP classifier and
no subnets. -/
theorem c9_no_subnet_protocol_rule_empty_witness :
    (c9TestRule.remoteSubnets = [] ∧ c9TestRule.namedServicePorts = [] ∧
      c9TestRule.l24Classifier.prot.isSome = true) ∧
    ruleFlows false false SEC_GROUP_IN_TABLE_ID SEC_GROUP_OUT_TABLE_ID
      TAP_TABLE_ID TAP_TABLE_ID 3 c9TestRule = ([], []) :=
  ⟨⟨rfl, rfl, rfl⟩,
   (c9_no_subnet_protocol_rule_empty false SEC_GROUP_IN_TABLE_ID
     SEC_GROUP_OUT_TABLE_ID TAP_TABLE_ID TAP_TABLE_ID 3 c9TestRule rfl rfl
     rfl).1⟩

/-! ## Theorems: endpoint removal (C5) -/

/-- C5: when the endpoint store reports the UUID absent,
handleEndpointUpdate clears exactly the GROUP_MAP and SERVICE_BYPASS
flow sets keyed by the UUID, releases the conntrack zone when conntrack
is enabled, changes nothing else (no other flow write under that key or
any other), and consequently, if the UUID keyed no flows in any other
table beforehand, no flow keyed by the UUID remains in any table. -/
theorem c5_endpoint_absent (env : Env) (s : SwState) (uuid : String)
    (habs : env.endpoints uuid = none) :
    (applyOps s (handleEndpointUpdate env uuid)).flows uuid
      GROUP_MAP_TABLE_ID = [] ∧
    (applyOps s (handleEndpointUpdate env uuid)).flows uuid
      SERVICE_BYPASS_TABLE_ID = [] ∧
    (∀ k t, ¬ (k = uuid ∧ t = GROUP_MAP_TABLE_ID) →
      ¬ (k = uuid ∧ t = SERVICE_BYPASS_TABLE_ID) →
      (applyOps s (handleEndpointUpdate env uuid)).flows k t =
        s.flows k t) ∧
    (env.conntrackEnabled = true →
      (applyOps s (handleEndpointUpdate env uuid)).zones uuid = none) ∧
    (env.conntrackEnabled = false →
      (applyOps s (handleEndpointUpdate env uuid)).zones = s.zones) ∧
    (applyOps s (handleEndpointUpdate env uuid)).tlvs = s.tlvs ∧
    (∀ op ∈ handleEndpointUpdate env uuid,
      op = Op.clearFlows uuid GROUP_MAP_TABLE_ID ∨
      op = Op.clearFlows uuid SERVICE_BYPASS_TABLE_ID ∨
      op = Op.eraseZone uuid) ∧
    ((∀ t, t ≠ GROUP_MAP_TABLE_ID → t ≠ SERVICE_BYPASS_TABLE_ID →
        s.flows uuid t = []) →
      ∀ t, (applyOps s (handleEndpointUpdate env uuid)).flows uuid t =
        []) := by
  have hops : handleEndpointUpdate env uuid =
      [Op.clearFlows uuid GROUP_MAP_TABLE_ID,
       Op.clearFlows uuid SERVICE_BYPASS_TABLE_ID] ++
      (if env.conntrackEnabled then [Op.eraseZone uuid] else []) := by
    unfold handleEndpointUpdate
    rw [habs]
  cases hct : env.conntrackEnabled with
  | false =>
    rw [hops, hct]
    refine ⟨by simp [applyOps, applyOp], by simp [applyOps, applyOp],
      ?_, by simp, by intro _; simp [applyOps, applyOp],
      by simp [applyOps, applyOp], ?_, ?_⟩
    · intro k t h1 h2
      simp only [applyOps, applyOp, if_neg h2, if_neg h1, List.foldl]
    · intro op hop
      simp at hop
      tauto
    · intro hpre t
      by_cases hgm : t = GROUP_MAP_TABLE_ID
      · subst hgm; simp [applyOps, applyOp]
      · by_cases hsb : t = SERVICE_BYPASS_TABLE_ID
        · subst hsb; simp [applyOps, applyOp]
        · simp only [applyOps, applyOp, List.foldl]
          rw [if_neg (by simp [hsb]), if_neg (by simp [hgm])]
          exact hpre t hgm hsb
  | true =>
    rw [hops, hct]
    refine ⟨by simp [applyOps, applyOp], by simp [applyOps, applyOp],
      ?_, by intro _; simp [applyOps, applyOp], by simp,
      by simp [applyOps, applyOp], ?_, ?_⟩
    · intro k t h1 h2
      simp only [applyOps, applyOp, List.foldl]
      rw [if_neg h2, if_neg h1]
    · intro op hop
      simp at hop
      tauto
    · intro hpre t
      by_cases hgm : t = GROUP_MAP_TABLE_ID
      · subst hgm; simp [applyOps, applyOp]
      · by_cases hsb : t = SERVICE_BYPASS_TABLE_ID
        · subst hsb; simp [applyOps, applyOp]
        · simp only [applyOps, applyOp, List.foldl]
          rw [if_neg (by simp [hsb]), if_neg (by simp [hgm])]
          exact hpre t hgm hsb

/-- A concrete environment used by witness instantiations. -/
def testEnv : Env :=
  { opflexDomain := "comp/prov/ctrlr-l1-dom/sw"
    addL34FlowsWithoutSubnet := true
    conntrackEnabled := false
    endpoints := fun _ => none
    portOf := fun s =>
      if s = "veth0" then 5 else if s = "veth0-up" then 6 else OFPP_NONE
    secGrpSetIdOf := fun _ => 1
    zoneOf := fun _ => none
    lbTrunkRanges := fun _ => []
    secGrpSetEmpty := fun _ => false
    rulesOf := fun _ => []
    epsForPort := fun _ => []
    setsForSecGrp := fun _ => []
    lbIfaceOf := fun _ => none
    epsByIfaceName := fun _ => []
    dropLogCfgOf := fun _ => none
    dropFlowCfgOf := fun _ => none
    dropLogIface := ""
    dropLogDst := Addr.v4 0 }

/-- The all-empty switch-manager state used by witness instantiations. -/
def emptySwState : SwState :=
  { flows := fun _ _ => [], tlvs := fun _ => [], zones := fun _ => none }

/-- Witness for C5 at the concrete environment (every endpoint lookup
absent) and the empty state. -/
theorem c5_endpoint_absent_witness :
    testEnv.endpoints "ep-1" = none ∧
    ((applyOps emptySwState (handleEndpointUpdate testEnv "ep-1")).flows
        "ep-1" GROUP_MAP_TABLE_ID = [] ∧
     (applyOps emptySwState (handleEndpointUpdate testEnv "ep-1")).flows
        "ep-1" SERVICE_BYPASS_TABLE_ID = [] ∧
     (∀ k t, ¬ (k = "ep-1" ∧ t = GROUP_MAP_TABLE_ID) →
       ¬ (k = "ep-1" ∧ t = SERVICE_BYPASS_TABLE_ID) →
       (applyOps emptySwState (handleEndpointUpdate testEnv "ep-1")).flows
          k t = emptySwState.flows k t) ∧
     (testEnv.conntrackEnabled = true →
       (applyOps emptySwState (handleEndpointUpdate testEnv "ep-1")).zones
          "ep-1" = none) ∧
     (testEnv.conntrackEnabled = false →
       (applyOps emptySwState (handleEndpointUpdate testEnv "ep-1")).zones =
         emptySwState.zones) ∧
     (applyOps emptySwState (handleEndpointUpdate testEnv "ep-1")).tlvs =
       emptySwState.tlvs ∧
     (∀ op ∈ handleEndpointUpdate testEnv "ep-1",
       op = Op.clearFlows "ep-1" GROUP_MAP_TABLE_ID ∨
       op = Op.clearFlows "ep-1" SERVICE_BYPASS_TABLE_ID ∨
       op = Op.eraseZone "ep-1") ∧
     ((∀ t, t ≠ GROUP_MAP_TABLE_ID → t ≠ SERVICE_BYPASS_TABLE_ID →
         emptySwState.flows "ep-1" t = []) →
       ∀ t, (applyOps emptySwState
         (handleEndpointUpdate testEnv "ep-1")).flows "ep-1" t = [])) :=
  ⟨rfl, c5_endpoint_absent testEnv emptySwState "ep-1" rfl⟩

/-! ## Theorems: the empty endpoint (C2) -/

theorem flowBypassServiceIP_nil (accessPort uplinkPort : Nat)
    (ep : Endpoint) (h : ep.serviceIPs = []) :
    flowBypassServiceIP accessPort uplinkPort ep = [] := by
  unfold flowBypassServiceIP
  rw [h]
  generalize ep.ips = l
  induction l with
  | nil => rfl
  | cons x xs ih =>
    cases x <;> simp_all

/-- C2: an endpoint with empty security-group set, no access VLAN, no
DHCP config, no service IPs, no trunked VLANs and no floating-IP
mappings, whose access interface resolves to port A and uplink
interface to port U, produces exactly two GROUP_MAP flows keyed by the
endpoint UUID — the priority-100 access-side classifier matching
in_port = A and tci(0, 0x1fff) setting reg0 = secGrpSetId(""),
reg7 = U, EGRESS_DIR metadata and going to SYS_SEC_GRP_OUT, and the
priority-100 uplink-side classifier matching in_port = U setting
reg0, reg7 = A, INGRESS_DIR metadata and going to SYS_SEC_GRP_IN — and
an empty SERVICE_BYPASS set. -/
theorem c2_empty_endpoint_flows (env : Env) (uuid ai ui : String)
    (ep : Endpoint) (A U sgid : Nat)
    (hep : env.endpoints uuid = some ep)
    (hai : ep.accessInterface = some ai)
    (hui : ep.accessUplinkInterface = some ui)
    (hvlan : ep.accessIfaceVlan = none)
    (hsvc : ep.serviceIPs = [])
    (hdh4 : ep.dhcpV4 = false) (hdh6 : ep.dhcpV6 = false)
    (hifn : ep.interfaceName = none)
    (hipm : ep.ipAddressMappings = [])
    (hsg : ep.securityGroups = [])
    (hct : env.conntrackEnabled = false)
    (hA : env.portOf ai = A) (hU : env.portOf ui = U)
    (hAok : A ≠ OFPP_NONE) (hUok : U ≠ OFPP_NONE)
    (hsgid : env.secGrpSetIdOf "" = sgid) :
    handleEndpointUpdate env uuid =
      [Op.writeFlow uuid GROUP_MAP_TABLE_ID
        [{ priority := 100, inPortM := some A, tciM := some (0, 0x1fff),
           actions := [.setReg 0 sgid, .setReg 7 U,
             .setMetadata access_meta_EGRESS_DIR access_meta_MASK,
             .go SYS_SEC_GRP_OUT_TABLE_ID] },
         { priority := 100, inPortM := some U,
           actions := [.setReg 0 sgid, .setReg 7 A,
             .setMetadata access_meta_INGRESS_DIR access_meta_MASK,
             .go SYS_SEC_GRP_IN_TABLE_ID] }],
       Op.writeFlow uuid SERVICE_BYPASS_TABLE_ID []] := by
  have hsvcnil := flowBypassServiceIP_nil A U ep hsvc
  have hsetid : getSecGrpSetId ep.securityGroups = "" := by
    rw [hsg]
    rfl
  unfold handleEndpointUpdate
  rw [hep]
  simp only [hai, hui, hvlan, hdh4, hdh6, hipm, hsg, hct, hA, hU,
    epTrunkMasks, hifn, hsetid, hsgid, Option.isSome_none,
    Bool.false_eq_true, and_false, if_false, Bool.false_and,
    if_true]
  rw [if_pos ⟨hAok, hUok⟩, if_pos ⟨hAok, hUok⟩]
  simp [hsvcnil, flowBypassServiceIP_nil, hsvc]
  rw [show getSecGrpSetId [] = "" from rfl, hsgid]

/-- The S1 empty endpoint used by the C2 witness. -/
def c2TestEp : Endpoint :=
  { accessInterface := some "veth0",
    accessUplinkInterface := some "veth0-up" }

/-- The environment of the C2 witness: the store resolves ep-1 to the S1
endpoint; veth0 is port 5 and veth0-up port 6. -/
def c2TestEnv : Env :=
  { testEnv with
    endpoints := fun u => if u = "ep-1" then some c2TestEp else none }

/-- Witness for C2 at the concrete S1 endpoint. -/
theorem c2_empty_endpoint_flows_witness :
    (c2TestEnv.endpoints "ep-1" = some c2TestEp ∧
     c2TestEp.accessInterface = some "veth0" ∧
     c2TestEp.accessUplinkInterface = some "veth0-up" ∧
     c2TestEnv.conntrackEnabled = false ∧
     c2TestEnv.portOf "veth0" = 5 ∧ c2TestEnv.portOf "veth0-up" = 6 ∧
     (5 : Nat) ≠ OFPP_NONE ∧ (6 : Nat) ≠ OFPP_NONE ∧
     c2TestEnv.secGrpSetIdOf "" = 1) ∧
    handleEndpointUpdate c2TestEnv "ep-1" =
      [Op.writeFlow "ep-1" GROUP_MAP_TABLE_ID
        [{ priority := 100, inPortM := some 5, tciM := some (0, 0x1fff),
           actions := [.setReg 0 1, .setReg 7 6,
             .setMetadata access_meta_EGRESS_DIR access_meta_MASK,
             .go SYS_SEC_GRP_OUT_TABLE_ID] },
         { priority := 100, inPortM := some 6,
           actions := [.setReg 0 1, .setReg 7 5,
             .setMetadata access_meta_INGRESS_DIR access_meta_MASK,
             .go SYS_SEC_GRP_IN_TABLE_ID] }],
       Op.writeFlow "ep-1" SERVICE_BYPASS_TABLE_ID []] :=
  ⟨⟨by decide, rfl, rfl, rfl, by decide, by decide, by decide, by decide,
    rfl⟩,
   c2_empty_endpoint_flows c2TestEnv "ep-1" "veth0" "veth0-up" c2TestEp
     5 6 1 (by decide) rfl rfl rfl rfl rfl rfl rfl rfl rfl rfl
     (by decide) (by decide) (by decide) (by decide) rfl⟩

/-! ## Theorems: the reserved empty-set flows (C6) -/

/-- An effect touches the flow cell (k, t) when it writes or clears that
cell. -/
def opTouches (op : Op) (k : String) (t : Nat) : Prop :=
  match op with
  | .writeFlow k2 t2 _ => k = k2 ∧ t = t2
  | .clearFlows k2 t2 => k = k2 ∧ t = t2
  | _ => False

/-- An effect is safe for the reserved empty-set cells when it touches
neither ("static", SEC_GROUP_IN) nor ("static", SEC_GROUP_OUT). -/
def secStaticSafe (op : Op) : Prop :=
  ¬ opTouches op "static" SEC_GROUP_IN_TABLE_ID ∧
  ¬ opTouches op "static" SEC_GROUP_OUT_TABLE_ID

theorem applyOp_flows_untouched (s : SwState) (op : Op) (k : String)
    (t : Nat) (h : ¬ opTouches op k t) :
    (applyOp s op).flows k t = s.flows k t := by
  cases op with
  | writeFlow k2 t2 fs =>
    simp only [applyOp]
    exact if_neg (by simpa [opTouches] using h)
  | clearFlows k2 t2 =>
    simp only [applyOp]
    exact if_neg (by simpa [opTouches] using h)
  | writeTlv k2 ts => rfl
  | eraseZone u => rfl
  | enableSync => rfl

theorem applyOps_flows_untouched (ops : List Op) (s : SwState)
    (k : String) (t : Nat) (h : ∀ op ∈ ops, ¬ opTouches op k t) :
    (applyOps s ops).flows k t = s.flows k t := by
  induction ops generalizing s with
  | nil => rfl
  | cons op rest ih =>
    have hstep := applyOp_flows_untouched s op k t (h op (by simp))
    calc (applyOps s (op :: rest)).flows k t
        = (applyOps (applyOp s op) rest).flows k t := rfl
      _ = (applyOp s op).flows k t :=
        ih (applyOp s op) (fun o ho => h o (by simp [ho]))
      _ = s.flows k t := hstep

attribute [simp] DROP_LOG_TABLE_ID SERVICE_BYPASS_TABLE_ID
  GROUP_MAP_TABLE_ID SYS_SEC_GRP_IN_TABLE_ID SEC_GROUP_IN_TABLE_ID
  SYS_SEC_GRP_OUT_TABLE_ID SEC_GROUP_OUT_TABLE_ID TAP_TABLE_ID
  OUT_TABLE_ID EXP_DROP_TABLE_ID

theorem handleEndpointUpdate_ops_safe (env : Env) (u : String) :
    ∀ op ∈ handleEndpointUpdate env u, secStaticSafe op := by
  cases h : env.endpoints u with
  | none =>
    intro op hop
    unfold handleEndpointUpdate at hop
    rw [h] at hop
    simp only [List.mem_append, List.mem_cons, List.not_mem_nil,
      or_false] at hop
    rcases hop with (h2 | h2) | h2
    · subst h2; exact ⟨by simp [opTouches], by simp [opTouches]⟩
    · subst h2; exact ⟨by simp [opTouches], by simp [opTouches]⟩
    · split at h2
      · simp only [List.mem_cons, List.not_mem_nil, or_false] at h2
        subst h2
        exact ⟨by simp [opTouches], by simp [opTouches]⟩
      · simp at h2
  | some ep =>
    intro op hop
    unfold handleEndpointUpdate at hop
    rw [h] at hop
    simp only [List.mem_cons, List.not_mem_nil, or_false] at hop
    rcases hop with h2 | h2
    · subst h2; exact ⟨by simp [opTouches], by simp [opTouches]⟩
    · subst h2; exact ⟨by simp [opTouches], by simp [opTouches]⟩

theorem handleDropLogPortUpdate_ops_safe (env : Env) :
    ∀ op ∈ handleDropLogPortUpdate env, secStaticSafe op := by
  intro op hop
  simp only [handleDropLogPortUpdate] at hop
  split at hop
  · simp only [List.mem_cons, List.not_mem_nil, or_false] at hop
    subst hop
    exact ⟨by simp [opTouches], by simp [opTouches]⟩
  · split at hop
    · simp only [List.mem_cons, List.not_mem_nil, or_false] at hop
      subst hop
      exact ⟨by simp [opTouches], by simp [opTouches]⟩
    · simp at hop

theorem handleSecGrpSetUpdate_ops_safe (env : Env) (grps : List String)
    (idStr : String) (hid : idStr ≠ "static") :
    ∀ op ∈ handleSecGrpSetUpdate env grps idStr, secStaticSafe op := by
  intro op hop
  have hid2 : ¬ ("static" = idStr) := fun h => hid h.symm
  simp only [handleSecGrpSetUpdate] at hop
  split at hop
  · simp only [List.mem_cons, List.not_mem_nil, or_false] at hop
    rcases hop with h | h | h | h <;> subst h <;>
      exact ⟨by simp [opTouches, hid2], by simp [opTouches, hid2]⟩
  · simp only [List.mem_append, List.mem_cons, List.not_mem_nil,
      or_false] at hop
    rcases hop with (h | h) | h
    · subst h; exact ⟨by simp [opTouches, hid2], by simp [opTouches, hid2]⟩
    · subst h; exact ⟨by simp [opTouches, hid2], by simp [opTouches, hid2]⟩
    · split at h <;>
        · simp only [List.mem_cons, List.not_mem_nil, or_false] at h
          rcases h with h | h | h | h <;> subst h <;>
            exact ⟨by simp [opTouches, hid2], by simp [opTouches, hid2]⟩

theorem handleDscpQosUpdate_ops_safe (env : Env) (iface : String)
    (dscp : Nat) :
    ∀ op ∈ handleDscpQosUpdate env iface dscp, secStaticSafe op := by
  intro op hop
  simp only [handleDscpQosUpdate] at hop
  simp only [List.mem_append, List.mem_cons, List.not_mem_nil,
    or_false] at hop
  rcases hop with (h | h) | h
  · subst h; exact ⟨by simp [opTouches], by simp [opTouches]⟩
  · subst h; exact ⟨by simp [opTouches], by simp [opTouches]⟩
  · split at h
    · simp at h
    · simp only [List.mem_cons, List.not_mem_nil, or_false] at h
      rcases h with h | h <;> subst h <;>
        exact ⟨by simp [opTouches], by simp [opTouches]⟩

/-- Event inputs whose derived owner keys cannot collide with the
reserved "static" key: security-group-set canonical id strings are
comma-joined URI strings (URIs start with a slash), never the literal
"static". -/
def eventKeysSafe (env : Env) : Event → Prop
  | .secGroupSetUpdated grps => getSecGrpSetId grps ≠ "static"
  | .secGroupUpdated uri =>
    ∀ grps ∈ env.setsForSecGrp uri, getSecGrpSetId grps ≠ "static"
  | _ => True

theorem callbackOps_secgroup_static_safe (env : Env) (stopping : Bool)
    (ev : Event) (hsafe : eventKeysSafe env ev) :
    ∀ op ∈ callbackOps env stopping ev, secStaticSafe op := by
  intro op hop
  cases ev with
  | endpointUpdated u =>
    simp only [callbackOps, endpointUpdatedOps] at hop
    split at hop
    · simp at hop
    · exact handleEndpointUpdate_ops_safe env u op hop
  | dscpQosUpdated iface dscp =>
    simp only [callbackOps, dscpQosUpdatedOps] at hop
    split at hop
    · simp at hop
    · exact handleDscpQosUpdate_ops_safe env iface dscp op hop
  | secGroupSetUpdated grps =>
    simp only [callbackOps, secGroupSetUpdatedOps] at hop
    split at hop
    · simp at hop
    · exact handleSecGrpSetUpdate_ops_safe env grps _ hsafe op hop
  | configUpdated =>
    simp only [callbackOps] at hop
    split at hop
    · simp at hop
    · simp only [List.mem_cons, List.not_mem_nil, or_false] at hop
      subst hop
      exact ⟨by simp [opTouches], by simp [opTouches]⟩
  | secGroupUpdated uri =>
    simp only [callbackOps, secGroupUpdatedOps] at hop
    split at hop
    · simp at hop
    · rw [List.mem_flatMap] at hop
      obtain ⟨grps, hgrps, hmem⟩ := hop
      simp only [secGroupSetUpdatedOps] at hmem
      split at hmem
      · simp at hmem
      · exact handleSecGrpSetUpdate_ops_safe env grps _
          (hsafe grps hgrps) op hmem
  | portStatusUpdate name portNo =>
    simp only [callbackOps, portStatusUpdateOps] at hop
    split at hop
    · simp at hop
    · unfold handlePortStatusUpdate at hop
      rw [List.mem_append] at hop
      rcases hop with h | h
      · rw [List.mem_flatMap] at h
        obtain ⟨u, _, hmem⟩ := h
        simp only [endpointUpdatedOps] at hmem
        split at hmem
        · simp at hmem
        · exact handleEndpointUpdate_ops_safe env u op hmem
      · split at h
        · exact handleDropLogPortUpdate_ops_safe env op h
        · simp at h
  | packetDropLogConfigUpdated uri =>
    simp only [callbackOps, packetDropLogConfigUpdatedOps] at hop
    split at hop
    · simp at hop
    · split at hop
      · simp only [List.mem_cons, List.not_mem_nil, or_false] at hop
        subst hop
        exact ⟨by simp [opTouches], by simp [opTouches]⟩
      · split at hop
        · split at hop <;>
            · simp only [List.mem_cons, List.not_mem_nil, or_false] at hop
              subst hop
              exact ⟨by simp [opTouches], by simp [opTouches]⟩
        · simp only [List.mem_cons, List.not_mem_nil, or_false] at hop
          subst hop
          exact ⟨by simp [opTouches], by simp [opTouches]⟩
  | packetDropFlowConfigUpdated uri =>
    simp only [callbackOps, packetDropFlowConfigUpdatedOps] at hop
    split at hop
    · simp at hop
    · split at hop <;>
        · simp only [List.mem_cons, List.not_mem_nil, or_false] at hop
          subst hop
          exact ⟨by simp [opTouches], by simp [opTouches]⟩
  | lbIfaceUpdated u =>
    simp only [callbackOps, lbIfaceUpdatedOps] at hop
    split at hop
    · simp at hop
    · split at hop
      · rw [List.mem_flatMap] at hop
        obtain ⟨u2, _, hmem⟩ := hop
        simp only [endpointUpdatedOps] at hmem
        split at hmem
        · simp at hmem
        · exact handleEndpointUpdate_ops_safe env u2 op hmem
      · simp at hop
  | rdConfigUpdated uri => simp [callbackOps] at hop

theorem applyOps_append (s : SwState) (l1 l2 : List Op) :
    applyOps s (l1 ++ l2) = applyOps (applyOps s l1) l2 :=
  List.foldl_append applyOp s l1 l2

/-- C6: at startup createStaticFlows writes, under the owner key
"static", the allow-all flow matching reg0 = secGrpSetId("") with
action goto TAP into both SEC_GROUP tables; no listener event of the
component (whose derived security-group-set keys are not the literal
"static") ever overwrites or clears those two cells; and the empty-set
id string survives the secGroupSet garbage-collection callback, so the
reserved flows persist and the empty set id stays allocated. -/
theorem c6_reserved_empty_set (env : Env) (s : SwState) (stopping : Bool)
    (ev : Event) (hsafe : eventKeysSafe env ev) :
    ((applyOps s (createStaticFlows env)).flows "static"
        SEC_GROUP_IN_TABLE_ID =
      [flowEmptySecGroup (env.secGrpSetIdOf "")] ∧
     (applyOps s (createStaticFlows env)).flows "static"
        SEC_GROUP_OUT_TABLE_ID =
      [flowEmptySecGroup (env.secGrpSetIdOf "")]) ∧
    (∀ s2 : SwState,
      (applyOps s2 (callbackOps env stopping ev)).flows "static"
          SEC_GROUP_IN_TABLE_ID =
        s2.flows "static" SEC_GROUP_IN_TABLE_ID ∧
      (applyOps s2 (callbackOps env stopping ev)).flows "static"
          SEC_GROUP_OUT_TABLE_ID =
        s2.flows "static" SEC_GROUP_OUT_TABLE_ID) ∧
    secGrpSetIdGarbageCb env "" = true ∧
    (∀ m : String → Option Nat,
      collectGarbage (secGrpSetIdGarbageCb env) m "" = m "") := by
  have hgc : secGrpSetIdGarbageCb env "" = true := by
    unfold secGrpSetIdGarbageCb
    simp
    left
    rw [show splitStr "" ',' = [""] from rfl]
    simp
  refine ⟨?_, ?_, hgc, ?_⟩
  · unfold createStaticFlows
    simp only [applyOps_append]
    constructor <;> simp [applyOps, applyOp]
  · intro s2
    have hsafeOps := callbackOps_secgroup_static_safe env stopping ev hsafe
    constructor
    · exact applyOps_flows_untouched _ s2 _ _
        (fun op hop => (hsafeOps op hop).1)
    · exact applyOps_flows_untouched _ s2 _ _
        (fun op hop => (hsafeOps op hop).2)
  · intro m
    unfold collectGarbage
    rw [hgc]
    simp

/-- Witness for C6 at the concrete test environment, the empty state and
a configUpdated event. -/
theorem c6_reserved_empty_set_witness :
    eventKeysSafe testEnv Event.configUpdated ∧
    (((applyOps emptySwState (createStaticFlows testEnv)).flows "static"
        SEC_GROUP_IN_TABLE_ID =
      [flowEmptySecGroup (testEnv.secGrpSetIdOf "")] ∧
     (applyOps emptySwState (createStaticFlows testEnv)).flows "static"
        SEC_GROUP_OUT_TABLE_ID =
      [flowEmptySecGroup (testEnv.secGrpSetIdOf "")]) ∧
    (∀ s2 : SwState,
      (applyOps s2 (callbackOps testEnv false Event.configUpdated)).flows
          "static" SEC_GROUP_IN_TABLE_ID =
        s2.flows "static" SEC_GROUP_IN_TABLE_ID ∧
      (applyOps s2 (callbackOps testEnv false Event.configUpdated)).flows
          "static" SEC_GROUP_OUT_TABLE_ID =
        s2.flows "static" SEC_GROUP_OUT_TABLE_ID) ∧
    secGrpSetIdGarbageCb testEnv "" = true ∧
    (∀ m : String → Option Nat,
      collectGarbage (secGrpSetIdGarbageCb testEnv) m "" = m "")) :=
  ⟨trivial,
   c6_reserved_empty_set testEnv emptySwState false Event.configUpdated
     trivial⟩

/-! ## Shape lemmas for the classifier loop body -/

theorem applySrcSub_shape (f : Flow) (ss : Subnet) (ethT : Nat) (g : Flow)
    (h : applySrcSub f ss ethT = some g) :
    ∃ v, g = { f with ipSrcM := v } := by
  unfold applySrcSub at h
  split at h
  · exact ⟨f.ipSrcM, by cases h; rfl⟩
  · split at h
    · next a _ _ =>
      exact ⟨some (a, ss.2), by cases h; rfl⟩
    · exact absurd h (by simp)

theorem applyDstSvc_shape (f : Flow) (ds : ServicePort) (ethT : Nat)
    (g : Flow) (h : applyDstSvc f ds ethT = some g) :
    ∃ d p tp, g = { f with ipDstM := d, protoM := p, tpDstM := tp } := by
  unfold applyDstSvc at h
  split at h
  · exact ⟨f.ipDstM, f.protoM, f.tpDstM, by cases h; rfl⟩
  · split at h
    · next a _ _ =>
      cases h
      by_cases hd : ds.port = 0
      · exact ⟨some (a, if ds.prefixLen = 0 ∧ ¬ a.is_unspecified = true then
          (if a.is_v4 = true then 32 else 128) else ds.prefixLen),
          f.protoM, f.tpDstM, by simp [servicePortApply, hd]⟩
      · exact ⟨some (a, if ds.prefixLen = 0 ∧ ¬ a.is_unspecified = true then
          (if a.is_v4 = true then 32 else 128) else ds.prefixLen),
          some ds.proto, some (ds.port, 0xffff),
          by simp [servicePortApply, hd]⟩
    · exact absurd h (by simp)

theorem match_group_shape (f : Flow) (pr sv dv : Nat) :
    ∃ r0 r2, match_group f pr sv dv =
      { f with priority := pr, reg0M := r0, reg2M := r2 } := by
  unfold match_group
  split
  · split
    · exact ⟨some sv, some dv, rfl⟩
    · exact ⟨some sv, f.reg2M, rfl⟩
  · split
    · exact ⟨f.reg0M, some dv, rfl⟩
    · exact ⟨f.reg0M, f.reg2M, rfl⟩

theorem match_protocol_shape (f : Flow) (c : L24Classifier) :
    (∃ et p2, (match_protocol f c).1 =
      { f with ethTypeM := et, protoM := p2 }) ∧
    (match_protocol f c).2 = c.etherT.getD 0 := by
  constructor
  · unfold match_protocol
    by_cases ha : c.arpOpc.getD 0 ≠ 0 <;>
      by_cases he : c.etherT.getD 0 ≠ 0 <;>
      cases hp : c.prot <;>
      simp only [ha, he, hp, if_true, if_false, ite_true, ite_false,
        ite_not, not_not, if_neg, if_pos] <;>
      exact ⟨_, _, rfl⟩
  · unfold match_protocol
    cases hp : c.prot <;> rfl

theorem classifier_prefix_shape (pr sv dv : Nat) (c : L24Classifier)
    (f0 : Flow) :
    ∃ r0 r2 et p2, (match_protocol (match_group f0 pr sv dv) c).1 =
      { f0 with priority := pr, reg0M := r0, reg2M := r2, ethTypeM := et, protoM := p2 } := by
  obtain ⟨r0, r2, hg⟩ := match_group_shape f0 pr sv dv
  obtain ⟨⟨et, p2, hp⟩, _⟩ := match_protocol_shape (match_group f0 pr sv dv) c
  refine ⟨r0, r2, et, p2, ?_⟩
  rw [hp, hg]

theorem classifier_entry_allow_eq (c : L24Classifier) (log : Bool)
    (nt ct dt pr fl ck sv dv : Nat) (sys : Bool) (ss : Subnet)
    (ds : ServicePort) (sm dm : Mask) (fm : Nat) (e : Flow)
    (h : classifier_entry c .CA_ALLOW log nt ct dt pr fl ck sv dv sys ss ds
      sm dm fm = some e) :
    e.cookie = ck ∧ e.ofFlags = fl ∧ e.ctStateM = none ∧
    e.priority = pr ∧
    e.actions = (if log then [Action.permitLog ct dt ck] else []) ++
      [Action.go nt] ∧
    (c.tcpFlags.getD tcpflag_UNSPECIFIED ≠ tcpflag_UNSPECIFIED →
      e.tcpFlagsM = some (tcpFlagsWire fm, tcpFlagsWire fm)) ∧
    (c.tcpFlags.getD tcpflag_UNSPECIFIED = tcpflag_UNSPECIFIED →
      e.tcpFlagsM = none) := by
  obtain ⟨r0, r2, et, p2, hpre⟩ := classifier_prefix_shape pr sv dv c
    ({ cookie := ovs_htonll ck, ofFlags := fl } : Flow)
  simp only [classifier_entry] at h
  by_cases htcp :
      c.tcpFlags.getD tcpflag_UNSPECIFIED ≠ tcpflag_UNSPECIFIED
  · rw [if_pos htcp] at h
    split at h
    · exact absurd h (by simp)
    · next f5 heq =>
      split at h
      · exact absurd h (by simp)
      · next f6 heq2 =>
        obtain ⟨v, rfl⟩ := applySrcSub_shape _ _ _ _ heq
        obtain ⟨d, p, tp, rfl⟩ := applyDstSvc_shape _ _ _ _ heq2
        rw [Option.some_inj] at h
        subst h
        simp only [match_tcp_flags, hpre]
        refine ⟨?_, ?_, ?_, ?_, ?_, ?_, ?_⟩ <;>
          cases tp <;> cases log <;>
          simp [Flow.act, ovs_htonll, htcp]
  · rw [if_neg htcp] at h
    split at h
    · exact absurd h (by simp)
    · next f5 heq =>
      split at h
      · exact absurd h (by simp)
      · next f6 heq2 =>
        obtain ⟨v, rfl⟩ := applySrcSub_shape _ _ _ _ heq
        obtain ⟨d, p, tp, rfl⟩ := applyDstSvc_shape _ _ _ _ heq2
        rw [Option.some_inj] at h
        subst h
        simp only [hpre]
        refine ⟨?_, ?_, ?_, ?_, ?_, ?_, ?_⟩ <;>
          cases tp <;> cases log <;>
          simp [Flow.act, ovs_htonll, htcp]

theorem classifier_entry_fwdtrack_eq (c : L24Classifier) (log : Bool)
    (nt ct dt pr fl ck sv dv : Nat) (sys : Bool) (ss : Subnet)
    (ds : ServicePort) (sm dm : Mask) (fm : Nat) (e : Flow)
    (h : classifier_entry c .CA_REFLEX_FWD_TRACK log nt ct dt pr fl ck sv dv sys
      ss ds sm dm fm = some e) :
    e.cookie = ck ∧ e.ofFlags = fl ∧ e.ctStateM = some (0, CT_TRACKED) ∧
    e.priority = pr ∧
    e.actions = [Action.conntrack 0 6 0 (some nt)] := by
  obtain ⟨r0, r2, et, p2, hpre⟩ := classifier_prefix_shape pr sv dv c
    ({ cookie := ovs_htonll ck, ofFlags := fl, ctStateM := some (0, CT_TRACKED) } : Flow)
  simp only [classifier_entry] at h
  by_cases htcp :
      c.tcpFlags.getD tcpflag_UNSPECIFIED ≠ tcpflag_UNSPECIFIED
  · rw [if_pos htcp] at h
    split at h
    · exact absurd h (by simp)
    · next f5 heq =>
      split at h
      · exact absurd h (by simp)
      · next f6 heq2 =>
        obtain ⟨v, rfl⟩ := applySrcSub_shape _ _ _ _ heq
        obtain ⟨d, p, tp, rfl⟩ := applyDstSvc_shape _ _ _ _ heq2
        rw [Option.some_inj] at h
        subst h
        simp only [match_tcp_flags, hpre]
        refine ⟨?_, ?_, ?_, ?_, ?_⟩ <;>
          cases tp <;>
          simp [Flow.act, ovs_htonll]
  · rw [if_neg htcp] at h
    split at h
    · exact absurd h (by simp)
    · next f5 heq =>
      split at h
      · exact absurd h (by simp)
      · next f6 heq2 =>
        obtain ⟨v, rfl⟩ := applySrcSub_shape _ _ _ _ heq
        obtain ⟨d, p, tp, rfl⟩ := applyDstSvc_shape _ _ _ _ heq2
        rw [Option.some_inj] at h
        subst h
        simp only [hpre]
        refine ⟨?_, ?_, ?_, ?_, ?_⟩ <;>
          cases tp <;>
          simp [Flow.act, ovs_htonll]

theorem classifier_entry_fwd_eq (c : L24Classifier) (log : Bool)
    (nt ct dt pr fl ck sv dv : Nat) (sys : Bool) (ss : Subnet)
    (ds : ServicePort) (sm dm : Mask) (fm : Nat) (e : Flow)
    (h : classifier_entry c .CA_REFLEX_FWD log nt ct dt pr fl ck sv dv sys
      ss ds sm dm fm = some e) :
    e.cookie = ck ∧ e.ofFlags = fl ∧
    e.ctStateM = some (CT_TRACKED ||| CT_NEW, CT_TRACKED ||| CT_NEW) ∧
    e.priority = pr ∧
    e.actions = (if sys then []
      else Action.conntrack CT_COMMIT 6 0 none ::
        (if log then [Action.permitLog ct dt ck] else [])) ++
      [Action.go nt] := by
  obtain ⟨r0, r2, et, p2, hpre⟩ := classifier_prefix_shape pr sv dv c
    ({ cookie := ovs_htonll ck, ofFlags := fl } : Flow)
  simp only [classifier_entry] at h
  by_cases htcp :
      c.tcpFlags.getD tcpflag_UNSPECIFIED ≠ tcpflag_UNSPECIFIED
  · rw [if_pos htcp] at h
    split at h
    · exact absurd h (by simp)
    · next f5 heq =>
      split at h
      · exact absurd h (by simp)
      · next f6 heq2 =>
        obtain ⟨v, rfl⟩ := applySrcSub_shape _ _ _ _ heq
        obtain ⟨d, p, tp, rfl⟩ := applyDstSvc_shape _ _ _ _ heq2
        rw [Option.some_inj] at h
        subst h
        simp only [match_tcp_flags, hpre]
        refine ⟨?_, ?_, ?_, ?_, ?_⟩ <;>
          cases tp <;> cases log <;> cases sys <;>
          simp [Flow.act, ovs_htonll]
  · rw [if_neg htcp] at h
    split at h
    · exact absurd h (by simp)
    · next f5 heq =>
      split at h
      · exact absurd h (by simp)
      · next f6 heq2 =>
        obtain ⟨v, rfl⟩ := applySrcSub_shape _ _ _ _ heq
        obtain ⟨d, p, tp, rfl⟩ := applyDstSvc_shape _ _ _ _ heq2
        rw [Option.some_inj] at h
        subst h
        simp only [hpre]
        refine ⟨?_, ?_, ?_, ?_, ?_⟩ <;>
          cases tp <;> cases log <;> cases sys <;>
          simp [Flow.act, ovs_htonll]

theorem classifier_entry_fwdest_eq (c : L24Classifier) (log : Bool)
    (nt ct dt pr fl ck sv dv : Nat) (sys : Bool) (ss : Subnet)
    (ds : ServicePort) (sm dm : Mask) (fm : Nat) (e : Flow)
    (h : classifier_entry c .CA_REFLEX_FWD_EST log nt ct dt pr fl ck sv dv sys
      ss ds sm dm fm = some e) :
    e.cookie = ck ∧ e.ofFlags = fl ∧
    e.ctStateM = some (CT_TRACKED ||| CT_ESTABLISHED,
      CT_TRACKED ||| CT_ESTABLISHED) ∧
    e.priority = pr ∧
    e.actions = (if log then [Action.permitLog ct dt ck] else []) ++
      [Action.go nt] := by
  obtain ⟨r0, r2, et, p2, hpre⟩ := classifier_prefix_shape pr sv dv c
    ({ cookie := ovs_htonll ck, ofFlags := fl } : Flow)
  simp only [classifier_entry] at h
  by_cases htcp :
      c.tcpFlags.getD tcpflag_UNSPECIFIED ≠ tcpflag_UNSPECIFIED
  · rw [if_pos htcp] at h
    split at h
    · exact absurd h (by simp)
    · next f5 heq =>
      split at h
      · exact absurd h (by simp)
      · next f6 heq2 =>
        obtain ⟨v, rfl⟩ := applySrcSub_shape _ _ _ _ heq
        obtain ⟨d, p, tp, rfl⟩ := applyDstSvc_shape _ _ _ _ heq2
        rw [Option.some_inj] at h
        subst h
        simp only [match_tcp_flags, hpre]
        refine ⟨?_, ?_, ?_, ?_, ?_⟩ <;>
          cases tp <;> cases log <;>
          simp [Flow.act, ovs_htonll]
  · rw [if_neg htcp] at h
    split at h
    · exact absurd h (by simp)
    · next f5 heq =>
      split at h
      · exact absurd h (by simp)
      · next f6 heq2 =>
        obtain ⟨v, rfl⟩ := applySrcSub_shape _ _ _ _ heq
        obtain ⟨d, p, tp, rfl⟩ := applyDstSvc_shape _ _ _ _ heq2
        rw [Option.some_inj] at h
        subst h
        simp only [hpre]
        refine ⟨?_, ?_, ?_, ?_, ?_⟩ <;>
          cases tp <;> cases log <;>
          simp [Flow.act, ovs_htonll]

theorem classifier_entry_revtrack_eq (c : L24Classifier) (log : Bool)
    (nt ct dt pr fl ck sv dv : Nat) (sys : Bool) (ss : Subnet)
    (ds : ServicePort) (sm dm : Mask) (fm : Nat) (e : Flow)
    (h : classifier_entry c .CA_REFLEX_REV_TRACK log nt ct dt pr fl ck sv dv
      sys ss ds sm dm fm = some e) :
    e.cookie = ck ∧ e.ofFlags = fl ∧ e.ctStateM = some (0, CT_TRACKED) ∧
    e.priority = pr ∧
    e.actions = [Action.conntrack 0 6 0 (some nt)] := by
  obtain ⟨r0, r2, et, p2, hpre⟩ := classifier_prefix_shape pr sv dv c
    ({ cookie := ovs_htonll ck, ofFlags := fl,
       ctStateM := some (0, CT_TRACKED) } : Flow)
  simp only [classifier_entry] at h
  rw [Option.some_inj] at h
  subst h
  simp only [hpre]
  refine ⟨?_, ?_, ?_, ?_, ?_⟩ <;> simp [Flow.act, ovs_htonll]

theorem classifier_entry_revtrack_some (c : L24Classifier) (log : Bool)
    (nt ct dt pr fl ck sv dv : Nat) (sys : Bool) (ss : Subnet)
    (ds : ServicePort) (sm dm : Mask) (fm : Nat) :
    ∃ e, classifier_entry c .CA_REFLEX_REV_TRACK log nt ct dt pr fl ck sv dv
      sys ss ds sm dm fm = some e := by
  simp only [classifier_entry]
  exact ⟨_, rfl⟩

theorem classifier_entry_revallow_eq (c : L24Classifier) (log : Bool)
    (nt ct dt pr fl ck sv dv : Nat) (sys : Bool) (ss : Subnet)
    (ds : ServicePort) (sm dm : Mask) (fm : Nat) (e : Flow)
    (h : classifier_entry c .CA_REFLEX_REV_ALLOW log nt ct dt pr fl ck sv dv
      sys ss ds sm dm fm = some e) :
    e.cookie = ck ∧ e.ofFlags = fl ∧ e.ctStateM = some revAllowCtState ∧
    e.priority = pr ∧
    e.actions = (if log then [Action.permitLog ct dt ck] else []) ++
      [Action.go nt] := by
  obtain ⟨r0, r2, et, p2, hpre⟩ := classifier_prefix_shape pr sv dv c
    ({ cookie := ovs_htonll ck, ofFlags := fl,
       ctStateM := some revAllowCtState } : Flow)
  simp only [classifier_entry] at h
  rw [Option.some_inj] at h
  subst h
  simp only [hpre]
  refine ⟨?_, ?_, ?_, ?_, ?_⟩ <;> cases log <;> simp [Flow.act, ovs_htonll]

theorem classifier_entry_revallow_some (c : L24Classifier) (log : Bool)
    (nt ct dt pr fl ck sv dv : Nat) (sys : Bool) (ss : Subnet)
    (ds : ServicePort) (sm dm : Mask) (fm : Nat) :
    ∃ e, classifier_entry c .CA_REFLEX_REV_ALLOW log nt ct dt pr fl ck sv dv
      sys ss ds sm dm fm = some e := by
  simp only [classifier_entry]
  cases log <;> exact ⟨_, rfl⟩

theorem rev_related_entry_eq (c : L24Classifier)
    (fl ck pr sv dv nt : Nat) (e : Flow)
    (h : rev_related_entry c fl ck pr sv dv nt = some e) :
    e.cookie = ck ∧ e.ofFlags = fl ∧
    e.ctStateM = some revRelatedCtState ∧ e.priority = pr ∧
    e.ethTypeM = some (c.etherT.getD 0) ∧ e.protoM = none ∧
    e.tpSrcM = none ∧ e.tpDstM = none ∧
    e.actions = [Action.go nt] := by
  simp only [rev_related_entry] at h
  split at h
  · obtain ⟨r0, r2, hg⟩ := match_group_shape
      ({ ethTypeM := some (c.etherT.getD 0), cookie := ovs_htonll ck,
         ofFlags := fl, ctStateM := some revRelatedCtState } : Flow) pr sv dv
    rw [Option.some_inj] at h
    subst h
    simp only [hg]
    refine ⟨?_, ?_, ?_, ?_, ?_, ?_, ?_, ?_, ?_⟩ <;>
      simp [Flow.act, ovs_htonll]
  · exact absurd h (by simp)

theorem rev_related_entry_some (c : L24Classifier)
    (fl ck pr sv dv nt : Nat)
    (heth : c.etherT.getD 0 = ethertype_IPV4 ∨
      c.etherT.getD 0 = ethertype_IPV6) :
    ∃ e, rev_related_entry c fl ck pr sv dv nt = some e := by
  simp only [rev_related_entry]
  rw [if_pos heth]
  exact ⟨_, rfl⟩

theorem rev_related_entry_none (c : L24Classifier)
    (fl ck pr sv dv nt : Nat)
    (heth : ¬ (c.etherT.getD 0 = ethertype_IPV4 ∨
      c.etherT.getD 0 = ethertype_IPV6)) :
    rev_related_entry c fl ck pr sv dv nt = none := by
  simp only [rev_related_entry]
  rw [if_neg heth]

/-- Family compatibility of a subnet as a Boolean: an absent address is
always compatible. -/
def subnetFamOk (ss : Subnet) (ethT : Nat) : Bool :=
  match ss.1 with
  | none => true
  | some a => familyOk a ethT

/-- Family compatibility of a service port as a Boolean. -/
def svcPortFamOk (ds : ServicePort) (ethT : Nat) : Bool :=
  match ds.addr with
  | none => true
  | some a => familyOk a ethT

theorem match_protocol_snd (f : Flow) (c : L24Classifier) :
    (match_protocol f c).2 = c.etherT.getD 0 :=
  (match_protocol_shape f c).2

theorem classifier_entry_isSome (c : L24Classifier) (act : ClassAction)
    (log : Bool) (nt ctb dt pr fl ck sv dv : Nat) (sys : Bool) (ss : Subnet)
    (ds : ServicePort) (sm dm : Mask) (fm : Nat)
    (hact : act = .CA_ALLOW ∨ act = .CA_REFLEX_FWD_TRACK ∨
      act = .CA_REFLEX_FWD ∨ act = .CA_REFLEX_FWD_EST)
    (hss : subnetFamOk ss (c.etherT.getD 0) = true)
    (hds : svcPortFamOk ds (c.etherT.getD 0) = true) :
    ∃ e, classifier_entry c act log nt ctb dt pr fl ck sv dv sys ss ds sm dm
      fm = some e := by
  obtain ⟨ssa, ssp⟩ := ss
  obtain ⟨dsa, dpl, dpr, dpo⟩ := ds
  rw [← Option.isSome_iff_exists]
  cases ssa with
  | none =>
    simp only [subnetFamOk] at hss
    cases dsa with
    | none =>
      rcases hact with rfl | rfl | rfl | rfl <;>
        simp [classifier_entry, match_protocol_snd, applySrcSub, applyDstSvc]
    | some b =>
      simp only [svcPortFamOk] at hds
      rcases hact with rfl | rfl | rfl | rfl <;>
        simp [classifier_entry, match_protocol_snd, applySrcSub, applyDstSvc,
          hds]
  | some a =>
    simp only [subnetFamOk] at hss
    cases dsa with
    | none =>
      rcases hact with rfl | rfl | rfl | rfl <;>
        simp [classifier_entry, match_protocol_snd, applySrcSub, applyDstSvc,
          hss]
    | some b =>
      simp only [svcPortFamOk] at hds
      rcases hact with rfl | rfl | rfl | rfl <;>
        simp [classifier_entry, match_protocol_snd, applySrcSub, applyDstSvc,
          hss, hds]

theorem add_classifier_entries_mem_intro (c : L24Classifier)
    (act : ClassAction) (log : Bool) (sourceSub destSub : Option (List Subnet))
    (destNamed : Option (List ServicePort))
    (nt ctb dt pr fl ck sv dv : Nat) (sys : Bool) (ss : Subnet)
    (ds : ServicePort) (sm dm : Mask) (fm : Nat) (e : Flow)
    (hact : act ≠ .CA_REFLEX_REV_RELATED)
    (hss : ss ∈ compute_eff_sub sourceSub)
    (hds : ds ∈ effDestSvcPortsOf destSub destNamed)
    (hsm : sm ∈ srcPortMasks c) (hdm : dm ∈ dstPortMasks c)
    (hfm : fm ∈ tcpFlagsList c)
    (he : classifier_entry c act log nt ctb dt pr fl ck
      (if sys then 0 else sv) (if sys then 0 else dv) sys ss ds sm dm fm =
      some e) :
    e ∈ add_classifier_entries c act log sourceSub destSub destNamed
      nt ctb dt pr fl ck sv dv sys := by
  simp only [add_classifier_entries, List.mem_flatMap]
  refine ⟨ss, hss, ds, hds, ?_⟩
  rw [if_neg hact]
  simp only [List.mem_flatMap, List.mem_filterMap]
  exact ⟨sm, hsm, dm, hdm, fm, hfm, he⟩

theorem add_classifier_entries_mem_elim (c : L24Classifier)
    (act : ClassAction) (log : Bool) (sourceSub destSub : Option (List Subnet))
    (destNamed : Option (List ServicePort))
    (nt ctb dt pr fl ck sv dv : Nat) (sys : Bool) (e : Flow)
    (hact : act ≠ .CA_REFLEX_REV_RELATED)
    (he : e ∈ add_classifier_entries c act log sourceSub destSub destNamed
      nt ctb dt pr fl ck sv dv sys) :
    ∃ ss ∈ compute_eff_sub sourceSub,
      ∃ ds ∈ effDestSvcPortsOf destSub destNamed,
        ∃ sm ∈ srcPortMasks c, ∃ dm ∈ dstPortMasks c,
          ∃ fm ∈ tcpFlagsList c,
            classifier_entry c act log nt ctb dt pr fl ck
              (if sys then 0 else sv) (if sys then 0 else dv) sys ss ds sm dm
              fm = some e := by
  simp only [add_classifier_entries, List.mem_flatMap] at he
  obtain ⟨ss, hss, ds, hds, he⟩ := he
  rw [if_neg hact] at he
  simp only [List.mem_flatMap, List.mem_filterMap] at he
  obtain ⟨sm, hsm, dm, hdm, fm, hfm, he⟩ := he
  exact ⟨ss, hss, ds, hds, sm, hsm, dm, hdm, fm, hfm, he⟩

theorem add_classifier_entries_rr_mem_intro (c : L24Classifier) (log : Bool)
    (sourceSub destSub : Option (List Subnet))
    (destNamed : Option (List ServicePort))
    (nt ctb dt pr fl ck sv dv : Nat) (sys : Bool) (e : Flow)
    (hne1 : compute_eff_sub sourceSub ≠ [])
    (hne2 : effDestSvcPortsOf destSub destNamed ≠ [])
    (he : rev_related_entry c fl ck pr (if sys then 0 else sv)
      (if sys then 0 else dv) nt = some e) :
    e ∈ add_classifier_entries c .CA_REFLEX_REV_RELATED log sourceSub destSub
      destNamed nt ctb dt pr fl ck sv dv sys := by
  obtain ⟨ss, hss⟩ := List.exists_mem_of_ne_nil _ hne1
  obtain ⟨ds, hds⟩ := List.exists_mem_of_ne_nil _ hne2
  simp only [add_classifier_entries, List.mem_flatMap]
  refine ⟨ss, hss, ds, hds, ?_⟩
  rw [he]
  simp

theorem add_classifier_entries_rr_mem_elim (c : L24Classifier) (log : Bool)
    (sourceSub destSub : Option (List Subnet))
    (destNamed : Option (List ServicePort))
    (nt ctb dt pr fl ck sv dv : Nat) (sys : Bool) (e : Flow)
    (he : e ∈ add_classifier_entries c .CA_REFLEX_REV_RELATED log sourceSub
      destSub destNamed nt ctb dt pr fl ck sv dv sys) :
    rev_related_entry c fl ck pr (if sys then 0 else sv)
      (if sys then 0 else dv) nt = some e := by
  simp only [add_classifier_entries, List.mem_flatMap] at he
  obtain ⟨ss, hss, ds, hds, he⟩ := he
  simpa using he

theorem srcPortMasks_ne_nil (c : L24Classifier) : srcPortMasks c ≠ [] := by
  unfold srcPortMasks
  split <;> simp_all

theorem dstPortMasks_ne_nil (c : L24Classifier) : dstPortMasks c ≠ [] := by
  unfold dstPortMasks
  split <;> simp_all

theorem tcpFlagsList_ne_nil (c : L24Classifier) : tcpFlagsList c ≠ [] := by
  unfold tcpFlagsList
  split <;> simp

theorem length_filterMap_of_isSome {α β : Type} (l : List α)
    (f : α → Option β) (h : ∀ a ∈ l, (f a).isSome = true) :
    (l.filterMap f).length = l.length := by
  induction l with
  | nil => rfl
  | cons x xs ih =>
    cases hx : f x with
    | none =>
      exact absurd (h x (List.mem_cons_self x xs)) (by simp [hx])
    | some b =>
      simp only [List.filterMap_cons, hx, List.length_cons]
      rw [ih (fun a ha => h a (List.mem_cons_of_mem x ha))]

theorem length_flatMap_const {α β : Type} (l : List α) (f : α → List β)
    (n : Nat) (h : ∀ a ∈ l, (f a).length = n) :
    (l.flatMap f).length = l.length * n := by
  induction l with
  | nil => simp
  | cons x xs ih =>
    rw [List.flatMap_cons, List.length_append,
      h x (List.mem_cons_self x xs),
      ih (fun a ha => h a (List.mem_cons_of_mem x ha)),
      List.length_cons, Nat.succ_mul, Nat.add_comm]

/-- The tcp-flags match field of any L3/L4 allow-family entry
(CA_ALLOW, CA_REFLEX_FWD_TRACK, CA_REFLEX_FWD, CA_REFLEX_FWD_EST):
when the classifier's flags value is specified, the entry matches the
wire bits of the loop's flag-mask element, with mask equal to value. -/
theorem classifier_entry_allowfam_tcpflags (c : L24Classifier)
    (act : ClassAction) (log : Bool)
    (nt ctb dt pr fl ck sv dv : Nat) (sys : Bool) (ss : Subnet)
    (ds : ServicePort) (sm dm : Mask) (fm : Nat) (e : Flow)
    (hact : act = .CA_ALLOW ∨ act = .CA_REFLEX_FWD_TRACK ∨
      act = .CA_REFLEX_FWD ∨ act = .CA_REFLEX_FWD_EST)
    (htcp : c.tcpFlags.getD tcpflag_UNSPECIFIED ≠ tcpflag_UNSPECIFIED)
    (h : classifier_entry c act log nt ctb dt pr fl ck sv dv sys
      ss ds sm dm fm = some e) :
    e.tcpFlagsM = some (tcpFlagsWire fm, tcpFlagsWire fm) := by
  rcases hact with rfl | rfl | rfl | rfl <;>
  · simp only [classifier_entry] at h
    rw [if_pos htcp] at h
    split at h
    · exact absurd h (by simp)
    · next f5 heq =>
      split at h
      · exact absurd h (by simp)
      · next f6 heq2 =>
        obtain ⟨v, rfl⟩ := applySrcSub_shape _ _ _ _ heq
        obtain ⟨d, p, tp, rfl⟩ := applyDstSvc_shape _ _ _ _ heq2
        rw [Option.some_inj] at h
        subst h
        cases tp <;> cases log <;> cases sys <;>
          simp [match_tcp_flags, Flow.act]

/-- C10: for a classifier whose TCP-flags value contains ESTABLISHED,
every L3/L4 allow-family action (CA_ALLOW, CA_REFLEX_FWD_TRACK,
CA_REFLEX_FWD, CA_REFLEX_FWD_EST) yields, per (source subnet,
destination service port, source mask, destination mask) combination,
exactly two entries: the first matching the ACK wire bit and the second
the RST wire bit — never the configured value itself; any other
non-unspecified flags value yields exactly one entry per combination,
matching that value's wire bits.  (Family compatibility of the subnets
is assumed so no combination is skipped.) -/
theorem c10_established_tcpflags_variants (c : L24Classifier)
    (act : ClassAction) (log : Bool)
    (sourceSub destSub : Option (List Subnet))
    (destNamed : Option (List ServicePort))
    (nt ctb dt pr fl ck sv dv : Nat) (sys : Bool) (tf : Nat)
    (hact : act = .CA_ALLOW ∨ act = .CA_REFLEX_FWD_TRACK ∨
      act = .CA_REFLEX_FWD ∨ act = .CA_REFLEX_FWD_EST)
    (htf : c.tcpFlags = some tf)
    (hfs : ∀ ss ∈ compute_eff_sub sourceSub,
      subnetFamOk ss (c.etherT.getD 0) = true)
    (hfd : ∀ ds ∈ effDestSvcPortsOf destSub destNamed,
      svcPortFamOk ds (c.etherT.getD 0) = true) :
    (tf &&& tcpflag_ESTABLISHED ≠ 0 →
      (∀ ss ∈ compute_eff_sub sourceSub,
        ∀ ds ∈ effDestSvcPortsOf destSub destNamed,
        ∀ sm ∈ srcPortMasks c, ∀ dm ∈ dstPortMasks c,
        ∃ eA eR, (tcpFlagsList c).filterMap
            (fun fm => classifier_entry c act log nt ctb dt pr fl ck
              (if sys then 0 else sv) (if sys then 0 else dv) sys ss ds sm
              dm fm) = [eA, eR] ∧
          eA.tcpFlagsM = some (0x10, 0x10) ∧
          eR.tcpFlagsM = some (0x04, 0x04)) ∧
      (∀ e ∈ add_classifier_entries c act log sourceSub destSub
          destNamed nt ctb dt pr fl ck sv dv sys,
        e.tcpFlagsM = some (0x10, 0x10) ∨ e.tcpFlagsM = some (0x04, 0x04)) ∧
      (add_classifier_entries c act log sourceSub destSub destNamed
          nt ctb dt pr fl ck sv dv sys).length =
        (compute_eff_sub sourceSub).length *
          ((effDestSvcPortsOf destSub destNamed).length *
            ((srcPortMasks c).length * ((dstPortMasks c).length * 2)))) ∧
    (tf &&& tcpflag_ESTABLISHED = 0 → tf ≠ tcpflag_UNSPECIFIED →
      (∀ ss ∈ compute_eff_sub sourceSub,
        ∀ ds ∈ effDestSvcPortsOf destSub destNamed,
        ∀ sm ∈ srcPortMasks c, ∀ dm ∈ dstPortMasks c,
        ∃ e, (tcpFlagsList c).filterMap
            (fun fm => classifier_entry c act log nt ctb dt pr fl ck
              (if sys then 0 else sv) (if sys then 0 else dv) sys ss ds sm
              dm fm) = [e] ∧
          e.tcpFlagsM = some (tcpFlagsWire tf, tcpFlagsWire tf)) ∧
      (∀ e ∈ add_classifier_entries c act log sourceSub destSub
          destNamed nt ctb dt pr fl ck sv dv sys,
        e.tcpFlagsM = some (tcpFlagsWire tf, tcpFlagsWire tf)) ∧
      (add_classifier_entries c act log sourceSub destSub destNamed
          nt ctb dt pr fl ck sv dv sys).length =
        (compute_eff_sub sourceSub).length *
          ((effDestSvcPortsOf destSub destNamed).length *
            ((srcPortMasks c).length * ((dstPortMasks c).length * 1)))) := by
  have hgetd : c.tcpFlags.getD tcpflag_UNSPECIFIED = tf := by
    rw [htf]; rfl
  have hne : act ≠ .CA_REFLEX_REV_RELATED := by
    rcases hact with rfl | rfl | rfl | rfl <;> decide
  constructor
  · intro hest
    have htfne : c.tcpFlags.getD tcpflag_UNSPECIFIED ≠ tcpflag_UNSPECIFIED := by
      rw [hgetd]
      intro h0
      exact hest (by simp [h0, tcpflag_UNSPECIFIED])
    have hlist : tcpFlagsList c = [tcpflag_ACK, tcpflag_RST] := by
      unfold tcpFlagsList
      rw [hgetd, if_pos hest]
    refine ⟨?_, ?_, ?_⟩
    · intro ss hss ds hds sm hsm dm hdm
      obtain ⟨eA, heA⟩ := classifier_entry_isSome c act log nt ctb dt pr fl
        ck (if sys then 0 else sv) (if sys then 0 else dv) sys ss ds sm dm
        tcpflag_ACK hact (hfs ss hss) (hfd ds hds)
      obtain ⟨eR, heR⟩ := classifier_entry_isSome c act log nt ctb dt pr fl
        ck (if sys then 0 else sv) (if sys then 0 else dv) sys ss ds sm dm
        tcpflag_RST hact (hfs ss hss) (hfd ds hds)
      refine ⟨eA, eR, ?_, ?_, ?_⟩
      · rw [hlist]
        simp only [List.filterMap_cons, heA, heR, List.filterMap_nil]
      · rw [classifier_entry_allowfam_tcpflags c act log nt ctb dt pr fl ck
          _ _ sys ss ds sm dm tcpflag_ACK eA hact htfne heA]
        rfl
      · rw [classifier_entry_allowfam_tcpflags c act log nt ctb dt pr fl ck
          _ _ sys ss ds sm dm tcpflag_RST eR hact htfne heR]
        rfl
    · intro e he
      obtain ⟨ss, hss, ds, hds, sm, hsm, dm, hdm, fm, hfm, he⟩ :=
        add_classifier_entries_mem_elim c act log sourceSub destSub
          destNamed nt ctb dt pr fl ck sv dv sys e hne he
      have hflag := classifier_entry_allowfam_tcpflags c act log nt ctb dt
        pr fl ck _ _ sys ss ds sm dm fm e hact htfne he
      rw [hlist] at hfm
      rcases List.mem_pair.mp hfm with rfl | rfl
      · left
        rw [hflag]
        rfl
      · right
        rw [hflag]
        rfl
    · simp only [add_classifier_entries]
      rw [length_flatMap_const _ _ ((effDestSvcPortsOf destSub destNamed).length *
          ((srcPortMasks c).length * ((dstPortMasks c).length * 2)))]
      intro ss hss
      beta_reduce
      rw [length_flatMap_const _ _ ((srcPortMasks c).length *
          ((dstPortMasks c).length * 2))]
      intro ds hds
      beta_reduce
      rw [if_neg hne]
      rw [length_flatMap_const _ _ ((dstPortMasks c).length * 2)]
      intro sm hsm
      beta_reduce
      rw [length_flatMap_const _ _ 2]
      intro dm hdm
      beta_reduce
      rw [length_filterMap_of_isSome]
      · rw [hlist]
        rfl
      · intro fm hfm
        obtain ⟨e, he⟩ := classifier_entry_isSome c act log nt ctb dt
          pr fl ck (if sys then 0 else sv) (if sys then 0 else dv) sys ss ds
          sm dm fm hact (hfs ss hss) (hfd ds hds)
        simp [he]
  · intro hest htfne0
    have htfne : c.tcpFlags.getD tcpflag_UNSPECIFIED ≠ tcpflag_UNSPECIFIED := by
      rw [hgetd]; exact htfne0
    have hlist : tcpFlagsList c = [tf] := by
      unfold tcpFlagsList
      rw [hgetd, if_neg (by simp [hest])]
    refine ⟨?_, ?_, ?_⟩
    · intro ss hss ds hds sm hsm dm hdm
      obtain ⟨e, he⟩ := classifier_entry_isSome c act log nt ctb dt pr fl
        ck (if sys then 0 else sv) (if sys then 0 else dv) sys ss ds sm dm
        tf hact (hfs ss hss) (hfd ds hds)
      refine ⟨e, ?_, ?_⟩
      · rw [hlist]
        simp only [List.filterMap_cons, he, List.filterMap_nil]
      · exact classifier_entry_allowfam_tcpflags c act log nt ctb dt pr fl
          ck _ _ sys ss ds sm dm tf e hact htfne he
    · intro e he
      obtain ⟨ss, hss, ds, hds, sm, hsm, dm, hdm, fm, hfm, he⟩ :=
        add_classifier_entries_mem_elim c act log sourceSub destSub
          destNamed nt ctb dt pr fl ck sv dv sys e hne he
      have hflag := classifier_entry_allowfam_tcpflags c act log nt ctb dt
        pr fl ck _ _ sys ss ds sm dm fm e hact htfne he
      rw [hlist] at hfm
      rw [List.mem_singleton.mp hfm] at hflag
      exact hflag
    · simp only [add_classifier_entries]
      rw [length_flatMap_const _ _ ((effDestSvcPortsOf destSub destNamed).length *
          ((srcPortMasks c).length * ((dstPortMasks c).length * 1)))]
      intro ss hss
      beta_reduce
      rw [length_flatMap_const _ _ ((srcPortMasks c).length *
          ((dstPortMasks c).length * 1))]
      intro ds hds
      beta_reduce
      rw [if_neg hne]
      rw [length_flatMap_const _ _ ((dstPortMasks c).length * 1)]
      intro sm hsm
      beta_reduce
      rw [length_flatMap_const _ _ 1]
      intro dm hdm
      beta_reduce
      rw [length_filterMap_of_isSome]
      · rw [hlist]
        rfl
      · intro fm hfm
        obtain ⟨e, he⟩ := classifier_entry_isSome c act log nt ctb dt
          pr fl ck (if sys then 0 else sv) (if sys then 0 else dv) sys ss ds
          sm dm fm hact (hfs ss hss) (hfd ds hds)
        simp [he]

/-- A TCP classifier whose flags value contains ESTABLISHED (together
with SYN). -/
def c10TestClassifier : L24Classifier :=
  { etherT := some ethertype_IPV4, prot := some 6,
    tcpFlags := some (tcpflag_ESTABLISHED ||| tcpflag_SYN) }

theorem c10_established_tcpflags_variants_witness :
    (∀ ss ∈ compute_eff_sub none,
      ∀ ds ∈ effDestSvcPortsOf none none,
      ∀ sm ∈ srcPortMasks c10TestClassifier,
      ∀ dm ∈ dstPortMasks c10TestClassifier,
      ∃ eA eR, (tcpFlagsList c10TestClassifier).filterMap
          (fun fm => classifier_entry c10TestClassifier .CA_REFLEX_FWD false
            1 4 9 100 1 42 (if false then 0 else 5) (if false then 0 else 0)
            false ss ds sm dm fm) = [eA, eR] ∧
        eA.tcpFlagsM = some (0x10, 0x10) ∧
        eR.tcpFlagsM = some (0x04, 0x04)) ∧
    (∀ e ∈ add_classifier_entries c10TestClassifier .CA_REFLEX_FWD false
        none none none 1 4 9 100 1 42 5 0 false,
      e.tcpFlagsM = some (0x10, 0x10) ∨ e.tcpFlagsM = some (0x04, 0x04)) ∧
    (add_classifier_entries c10TestClassifier .CA_REFLEX_FWD false none none
        none 1 4 9 100 1 42 5 0 false).length =
      (compute_eff_sub none).length * ((effDestSvcPortsOf none none).length *
        ((srcPortMasks c10TestClassifier).length *
          ((dstPortMasks c10TestClassifier).length * 2))) :=
  (c10_established_tcpflags_variants c10TestClassifier .CA_REFLEX_FWD false
    none none none 1 4 9 100 1 42 5 0 false 18 (by decide) (by decide)
    (by decide) (by decide)).1 (by decide)

theorem reflex_fwd_triple_props (c : L24Classifier) (log sys : Bool)
    (rc gid pr ff cur aft : Nat)
    (srcS dstS : Option (List Subnet)) (namS : Option (List ServicePort))
    (hss : ∃ ss ∈ compute_eff_sub srcS,
      subnetFamOk ss (c.etherT.getD 0) = true)
    (hds : ∃ ds ∈ effDestSvcPortsOf dstS namS,
      svcPortFamOk ds (c.etherT.getD 0) = true) :
    (∃ e ∈ add_classifier_entries c .CA_REFLEX_FWD log srcS dstS namS aft
        cur EXP_DROP_TABLE_ID pr ff rc gid 0 sys ++
        (add_classifier_entries c .CA_REFLEX_FWD_TRACK log srcS dstS namS
          GROUP_MAP_TABLE_ID cur EXP_DROP_TABLE_ID pr ff rc gid 0 sys ++
         add_classifier_entries c .CA_REFLEX_FWD_EST log srcS dstS namS aft
          cur EXP_DROP_TABLE_ID pr ff rc gid 0 sys),
      e.ctStateM = some (CT_TRACKED ||| CT_NEW, CT_TRACKED ||| CT_NEW) ∧
      e.cookie = rc ∧
      e.actions = (if sys then []
        else Action.conntrack CT_COMMIT 6 0 none ::
          (if log then [Action.permitLog cur EXP_DROP_TABLE_ID rc]
           else [])) ++ [Action.go aft]) ∧
    (∃ e ∈ add_classifier_entries c .CA_REFLEX_FWD log srcS dstS namS aft
        cur EXP_DROP_TABLE_ID pr ff rc gid 0 sys ++
        (add_classifier_entries c .CA_REFLEX_FWD_TRACK log srcS dstS namS
          GROUP_MAP_TABLE_ID cur EXP_DROP_TABLE_ID pr ff rc gid 0 sys ++
         add_classifier_entries c .CA_REFLEX_FWD_EST log srcS dstS namS aft
          cur EXP_DROP_TABLE_ID pr ff rc gid 0 sys),
      e.ctStateM = some (0, CT_TRACKED) ∧ e.cookie = rc ∧
      e.actions = [Action.conntrack 0 6 0 (some GROUP_MAP_TABLE_ID)]) ∧
    (∃ e ∈ add_classifier_entries c .CA_REFLEX_FWD log srcS dstS namS aft
        cur EXP_DROP_TABLE_ID pr ff rc gid 0 sys ++
        (add_classifier_entries c .CA_REFLEX_FWD_TRACK log srcS dstS namS
          GROUP_MAP_TABLE_ID cur EXP_DROP_TABLE_ID pr ff rc gid 0 sys ++
         add_classifier_entries c .CA_REFLEX_FWD_EST log srcS dstS namS aft
          cur EXP_DROP_TABLE_ID pr ff rc gid 0 sys),
      e.ctStateM = some (CT_TRACKED ||| CT_ESTABLISHED,
        CT_TRACKED ||| CT_ESTABLISHED) ∧ e.cookie = rc ∧
      e.actions = (if log then [Action.permitLog cur EXP_DROP_TABLE_ID rc]
        else []) ++ [Action.go aft]) ∧
    (∀ e ∈ add_classifier_entries c .CA_REFLEX_FWD log srcS dstS namS aft
        cur EXP_DROP_TABLE_ID pr ff rc gid 0 sys ++
        (add_classifier_entries c .CA_REFLEX_FWD_TRACK log srcS dstS namS
          GROUP_MAP_TABLE_ID cur EXP_DROP_TABLE_ID pr ff rc gid 0 sys ++
         add_classifier_entries c .CA_REFLEX_FWD_EST log srcS dstS namS aft
          cur EXP_DROP_TABLE_ID pr ff rc gid 0 sys),
      e.cookie = rc) := by
  obtain ⟨ss0, hss0, hfam0⟩ := hss
  obtain ⟨ds0, hds0, hfamd⟩ := hds
  obtain ⟨sm0, hsm0⟩ := List.exists_mem_of_ne_nil _ (srcPortMasks_ne_nil c)
  obtain ⟨dm0, hdm0⟩ := List.exists_mem_of_ne_nil _ (dstPortMasks_ne_nil c)
  obtain ⟨fm0, hfm0⟩ := List.exists_mem_of_ne_nil _ (tcpFlagsList_ne_nil c)
  refine ⟨?_, ?_, ?_, ?_⟩
  · obtain ⟨e, he⟩ := classifier_entry_isSome c .CA_REFLEX_FWD log aft cur
      EXP_DROP_TABLE_ID pr ff rc (if sys then 0 else gid)
      (if sys then 0 else 0) sys ss0 ds0 sm0 dm0 fm0
      (Or.inr (Or.inr (Or.inl rfl))) hfam0 hfamd
    obtain ⟨hc, -, hcts, -, ha⟩ := classifier_entry_fwd_eq c log aft cur
      EXP_DROP_TABLE_ID pr ff rc _ _ sys ss0 ds0 sm0 dm0 fm0 e he
    exact ⟨e, List.mem_append_left _ (add_classifier_entries_mem_intro c
      .CA_REFLEX_FWD log srcS dstS namS aft cur EXP_DROP_TABLE_ID pr ff rc
      gid 0 sys ss0 ds0 sm0 dm0 fm0 e (by decide) hss0 hds0 hsm0 hdm0 hfm0
      he), hcts, hc, ha⟩
  · obtain ⟨e, he⟩ := classifier_entry_isSome c .CA_REFLEX_FWD_TRACK log
      GROUP_MAP_TABLE_ID cur EXP_DROP_TABLE_ID pr ff rc
      (if sys then 0 else gid) (if sys then 0 else 0) sys ss0 ds0 sm0 dm0 fm0
      (Or.inr (Or.inl rfl)) hfam0 hfamd
    obtain ⟨hc, -, hcts, -, ha⟩ := classifier_entry_fwdtrack_eq c log
      GROUP_MAP_TABLE_ID cur EXP_DROP_TABLE_ID pr ff rc _ _ sys ss0 ds0 sm0
      dm0 fm0 e he
    exact ⟨e, List.mem_append_right _ (List.mem_append_left _
      (add_classifier_entries_mem_intro c .CA_REFLEX_FWD_TRACK log srcS dstS
      namS GROUP_MAP_TABLE_ID cur EXP_DROP_TABLE_ID pr ff rc gid 0 sys ss0
      ds0 sm0 dm0 fm0 e (by decide) hss0 hds0 hsm0 hdm0 hfm0 he)),
      hcts, hc, ha⟩
  · obtain ⟨e, he⟩ := classifier_entry_isSome c .CA_REFLEX_FWD_EST log aft
      cur EXP_DROP_TABLE_ID pr ff rc (if sys then 0 else gid)
      (if sys then 0 else 0) sys ss0 ds0 sm0 dm0 fm0
      (Or.inr (Or.inr (Or.inr rfl))) hfam0 hfamd
    obtain ⟨hc, -, hcts, -, ha⟩ := classifier_entry_fwdest_eq c log aft cur
      EXP_DROP_TABLE_ID pr ff rc _ _ sys ss0 ds0 sm0 dm0 fm0 e he
    exact ⟨e, List.mem_append_right _ (List.mem_append_right _
      (add_classifier_entries_mem_intro c .CA_REFLEX_FWD_EST log srcS dstS
      namS aft cur EXP_DROP_TABLE_ID pr ff rc gid 0 sys ss0 ds0 sm0 dm0 fm0
      e (by decide) hss0 hds0 hsm0 hdm0 hfm0 he)), hcts, hc, ha⟩
  · intro e he
    rcases List.mem_append.mp he with he | he
    · obtain ⟨ss, -, ds, -, sm, -, dm, -, fm, -, hce⟩ :=
        add_classifier_entries_mem_elim c .CA_REFLEX_FWD log srcS dstS namS
          aft cur EXP_DROP_TABLE_ID pr ff rc gid 0 sys e (by decide) he
      exact (classifier_entry_fwd_eq c log aft cur EXP_DROP_TABLE_ID pr ff
        rc _ _ sys ss ds sm dm fm e hce).1
    rcases List.mem_append.mp he with he | he
    · obtain ⟨ss, -, ds, -, sm, -, dm, -, fm, -, hce⟩ :=
        add_classifier_entries_mem_elim c .CA_REFLEX_FWD_TRACK log srcS dstS
          namS GROUP_MAP_TABLE_ID cur EXP_DROP_TABLE_ID pr ff rc gid 0 sys e
          (by decide) he
      exact (classifier_entry_fwdtrack_eq c log GROUP_MAP_TABLE_ID cur
        EXP_DROP_TABLE_ID pr ff rc _ _ sys ss ds sm dm fm e hce).1
    · obtain ⟨ss, -, ds, -, sm, -, dm, -, fm, -, hce⟩ :=
        add_classifier_entries_mem_elim c .CA_REFLEX_FWD_EST log srcS dstS
          namS aft cur EXP_DROP_TABLE_ID pr ff rc gid 0 sys e (by decide) he
      exact (classifier_entry_fwdest_eq c log aft cur EXP_DROP_TABLE_ID pr
        ff rc _ _ sys ss ds sm dm fm e hce).1

theorem reflex_rev_triple_props (c : L24Classifier) (log sys : Bool)
    (rc gid pr ff cur aft : Nat)
    (srcS dstS : Option (List Subnet)) (namS : Option (List ServicePort))
    (hne1 : compute_eff_sub srcS ≠ [])
    (hne2 : effDestSvcPortsOf dstS namS ≠ []) :
    (∃ e ∈ add_classifier_entries c .CA_REFLEX_REV_TRACK log srcS dstS namS
        GROUP_MAP_TABLE_ID cur EXP_DROP_TABLE_ID pr ff 0 gid 0 sys ++
        (add_classifier_entries c .CA_REFLEX_REV_ALLOW log srcS dstS namS
          aft cur EXP_DROP_TABLE_ID pr ff rc gid 0 sys ++
         add_classifier_entries c .CA_REFLEX_REV_RELATED log srcS dstS namS
          aft cur EXP_DROP_TABLE_ID pr ff rc gid 0 sys),
      e.cookie = 0 ∧ e.ctStateM = some (0, CT_TRACKED) ∧
      e.actions = [Action.conntrack 0 6 0 (some GROUP_MAP_TABLE_ID)]) ∧
    (∃ e ∈ add_classifier_entries c .CA_REFLEX_REV_TRACK log srcS dstS namS
        GROUP_MAP_TABLE_ID cur EXP_DROP_TABLE_ID pr ff 0 gid 0 sys ++
        (add_classifier_entries c .CA_REFLEX_REV_ALLOW log srcS dstS namS
          aft cur EXP_DROP_TABLE_ID pr ff rc gid 0 sys ++
         add_classifier_entries c .CA_REFLEX_REV_RELATED log srcS dstS namS
          aft cur EXP_DROP_TABLE_ID pr ff rc gid 0 sys),
      e.cookie = rc ∧ e.ctStateM = some revAllowCtState ∧
      e.actions = (if log then [Action.permitLog cur EXP_DROP_TABLE_ID rc]
        else []) ++ [Action.go aft]) ∧
    ((c.etherT.getD 0 = ethertype_IPV4 ∨ c.etherT.getD 0 = ethertype_IPV6) →
      ∃ e ∈ add_classifier_entries c .CA_REFLEX_REV_TRACK log srcS dstS namS
          GROUP_MAP_TABLE_ID cur EXP_DROP_TABLE_ID pr ff 0 gid 0 sys ++
          (add_classifier_entries c .CA_REFLEX_REV_ALLOW log srcS dstS namS
            aft cur EXP_DROP_TABLE_ID pr ff rc gid 0 sys ++
           add_classifier_entries c .CA_REFLEX_REV_RELATED log srcS dstS
            namS aft cur EXP_DROP_TABLE_ID pr ff rc gid 0 sys),
        e.cookie = rc ∧ e.ctStateM = some revRelatedCtState ∧
        e.ethTypeM = some (c.etherT.getD 0) ∧ e.protoM = none ∧
        e.tpSrcM = none ∧ e.tpDstM = none ∧
        e.actions = [Action.go aft]) ∧
    (∀ e ∈ add_classifier_entries c .CA_REFLEX_REV_TRACK log srcS dstS namS
        GROUP_MAP_TABLE_ID cur EXP_DROP_TABLE_ID pr ff 0 gid 0 sys ++
        (add_classifier_entries c .CA_REFLEX_REV_ALLOW log srcS dstS namS
          aft cur EXP_DROP_TABLE_ID pr ff rc gid 0 sys ++
         add_classifier_entries c .CA_REFLEX_REV_RELATED log srcS dstS namS
          aft cur EXP_DROP_TABLE_ID pr ff rc gid 0 sys),
      e.cookie = rc ∨ (e.cookie = 0 ∧
        e.actions = [Action.conntrack 0 6 0 (some GROUP_MAP_TABLE_ID)])) := by
  obtain ⟨ss0, hss0⟩ := List.exists_mem_of_ne_nil _ hne1
  obtain ⟨ds0, hds0⟩ := List.exists_mem_of_ne_nil _ hne2
  obtain ⟨sm0, hsm0⟩ := List.exists_mem_of_ne_nil _ (srcPortMasks_ne_nil c)
  obtain ⟨dm0, hdm0⟩ := List.exists_mem_of_ne_nil _ (dstPortMasks_ne_nil c)
  obtain ⟨fm0, hfm0⟩ := List.exists_mem_of_ne_nil _ (tcpFlagsList_ne_nil c)
  refine ⟨?_, ?_, ?_, ?_⟩
  · obtain ⟨e, he⟩ := classifier_entry_revtrack_some c log
      GROUP_MAP_TABLE_ID cur EXP_DROP_TABLE_ID pr ff 0
      (if sys then 0 else gid) (if sys then 0 else 0) sys ss0 ds0 sm0 dm0 fm0
    obtain ⟨hc, -, hcts, -, ha⟩ := classifier_entry_revtrack_eq c log
      GROUP_MAP_TABLE_ID cur EXP_DROP_TABLE_ID pr ff 0 _ _ sys ss0 ds0 sm0
      dm0 fm0 e he
    exact ⟨e, List.mem_append_left _ (add_classifier_entries_mem_intro c
      .CA_REFLEX_REV_TRACK log srcS dstS namS GROUP_MAP_TABLE_ID cur
      EXP_DROP_TABLE_ID pr ff 0 gid 0 sys ss0 ds0 sm0 dm0 fm0 e (by decide)
      hss0 hds0 hsm0 hdm0 hfm0 he), hc, hcts, ha⟩
  · obtain ⟨e, he⟩ := classifier_entry_revallow_some c log aft cur
      EXP_DROP_TABLE_ID pr ff rc (if sys then 0 else gid)
      (if sys then 0 else 0) sys ss0 ds0 sm0 dm0 fm0
    obtain ⟨hc, -, hcts, -, ha⟩ := classifier_entry_revallow_eq c log aft
      cur EXP_DROP_TABLE_ID pr ff rc _ _ sys ss0 ds0 sm0 dm0 fm0 e he
    exact ⟨e, List.mem_append_right _ (List.mem_append_left _
      (add_classifier_entries_mem_intro c .CA_REFLEX_REV_ALLOW log srcS dstS
      namS aft cur EXP_DROP_TABLE_ID pr ff rc gid 0 sys ss0 ds0 sm0 dm0 fm0
      e (by decide) hss0 hds0 hsm0 hdm0 hfm0 he)), hc, hcts, ha⟩
  · intro heth
    obtain ⟨e, he⟩ := rev_related_entry_some c ff rc pr
      (if sys then 0 else gid) (if sys then 0 else 0) aft heth
    obtain ⟨hc, -, hcts, -, heth2, hp, hts, htd, ha⟩ := rev_related_entry_eq
      c ff rc pr _ _ aft e he
    exact ⟨e, List.mem_append_right _ (List.mem_append_right _
      (add_classifier_entries_rr_mem_intro c log srcS dstS namS aft cur
      EXP_DROP_TABLE_ID pr ff rc gid 0 sys e hne1 hne2 he)),
      hc, hcts, heth2, hp, hts, htd, ha⟩
  · intro e he
    rcases List.mem_append.mp he with he | he
    · obtain ⟨ss, -, ds, -, sm, -, dm, -, fm, -, hce⟩ :=
        add_classifier_entries_mem_elim c .CA_REFLEX_REV_TRACK log srcS dstS
          namS GROUP_MAP_TABLE_ID cur EXP_DROP_TABLE_ID pr ff 0 gid 0 sys e
          (by decide) he
      have h := classifier_entry_revtrack_eq c log GROUP_MAP_TABLE_ID cur
        EXP_DROP_TABLE_ID pr ff 0 _ _ sys ss ds sm dm fm e hce
      exact Or.inr ⟨h.1, h.2.2.2.2⟩
    rcases List.mem_append.mp he with he | he
    · obtain ⟨ss, -, ds, -, sm, -, dm, -, fm, -, hce⟩ :=
        add_classifier_entries_mem_elim c .CA_REFLEX_REV_ALLOW log srcS dstS
          namS aft cur EXP_DROP_TABLE_ID pr ff rc gid 0 sys e (by decide) he
      exact Or.inl (classifier_entry_revallow_eq c log aft cur
        EXP_DROP_TABLE_ID pr ff rc _ _ sys ss ds sm dm fm e hce).1
    · have hce := add_classifier_entries_rr_mem_elim c log srcS dstS namS
        aft cur EXP_DROP_TABLE_ID pr ff rc gid 0 sys e he
      exact Or.inl (rev_related_entry_eq c ff rc pr _ _ aft e hce).1

/-- C1 (amended): a security-group rule with allow=true, conntrack
REFLEXIVE and direction IN contributes, besides the forward CA_REFLEX_FWD
entry (ct_state tracked+new, conntrack-commit only for non-system rules),
entries of all five CA_REFLEX_* kinds: CA_REFLEX_FWD_TRACK (ct_state
(0, tracked), action ct recirculating to the GROUP_MAP table — not to the
ingress table as the original claim stated) and CA_REFLEX_FWD_EST
(tracked+established, goto after-ingress) on the ingress side, and
CA_REFLEX_REV_TRACK (cookie 0, ct recirculating to GROUP_MAP),
CA_REFLEX_REV_ALLOW (tracked+established+reply, not new/invalid/related)
and CA_REFLEX_REV_RELATED (only for ethertype IPv4/IPv6, matching the
ethertype and no L4 fields) on the egress side; every ingress entry
carries the rule cookie, and every egress entry either carries it or is a
REV_TRACK entry with cookie 0.  The dirOut direction is mirrored, with
the remote subnets moved to the destination side of the forward entries.
The existence parts assume a remote subnet whose address family fits the
classifier ethertype. -/
theorem c1_reflexive_rule_quintet (addL34 sys : Bool)
    (it et ait aet gid : Nat) (pc : PolicyRule)
    (hallow : pc.allow = true)
    (hct : pc.l24Classifier.connectionTracking.getD conntrack_NORMAL =
      conntrack_REFLEXIVE)
    (hfwd : ∃ ss ∈ pc.remoteSubnets,
      subnetFamOk ss (pc.l24Classifier.etherT.getD 0) = true) :
    (pc.direction = .dirIn →
      (∃ e ∈ (ruleFlows addL34 sys it et ait aet gid pc).1,
        e.ctStateM = some (CT_TRACKED ||| CT_NEW, CT_TRACKED ||| CT_NEW) ∧
        e.cookie = pc.ruleCookie ∧
        e.actions = (if sys then []
          else Action.conntrack CT_COMMIT 6 0 none ::
            (if pc.log then [Action.permitLog it EXP_DROP_TABLE_ID
              pc.ruleCookie] else [])) ++ [Action.go ait]) ∧
      (∃ e ∈ (ruleFlows addL34 sys it et ait aet gid pc).1,
        e.ctStateM = some (0, CT_TRACKED) ∧ e.cookie = pc.ruleCookie ∧
        e.actions = [Action.conntrack 0 6 0 (some GROUP_MAP_TABLE_ID)]) ∧
      (∃ e ∈ (ruleFlows addL34 sys it et ait aet gid pc).1,
        e.ctStateM = some (CT_TRACKED ||| CT_ESTABLISHED,
          CT_TRACKED ||| CT_ESTABLISHED) ∧ e.cookie = pc.ruleCookie ∧
        e.actions = (if pc.log then [Action.permitLog it EXP_DROP_TABLE_ID
          pc.ruleCookie] else []) ++ [Action.go ait]) ∧
      (∃ e ∈ (ruleFlows addL34 sys it et ait aet gid pc).2,
        e.cookie = 0 ∧ e.ctStateM = some (0, CT_TRACKED) ∧
        e.actions = [Action.conntrack 0 6 0 (some GROUP_MAP_TABLE_ID)]) ∧
      (∃ e ∈ (ruleFlows addL34 sys it et ait aet gid pc).2,
        e.cookie = pc.ruleCookie ∧ e.ctStateM = some revAllowCtState ∧
        e.actions = (if pc.log then [Action.permitLog et EXP_DROP_TABLE_ID
          pc.ruleCookie] else []) ++ [Action.go aet]) ∧
      ((pc.l24Classifier.etherT.getD 0 = ethertype_IPV4 ∨
        pc.l24Classifier.etherT.getD 0 = ethertype_IPV6) →
        ∃ e ∈ (ruleFlows addL34 sys it et ait aet gid pc).2,
          e.cookie = pc.ruleCookie ∧
          e.ctStateM = some revRelatedCtState ∧
          e.ethTypeM = some (pc.l24Classifier.etherT.getD 0) ∧
          e.protoM = none ∧ e.tpSrcM = none ∧ e.tpDstM = none ∧
          e.actions = [Action.go aet]) ∧
      (∀ e ∈ (ruleFlows addL34 sys it et ait aet gid pc).1,
        e.cookie = pc.ruleCookie) ∧
      (∀ e ∈ (ruleFlows addL34 sys it et ait aet gid pc).2,
        e.cookie = pc.ruleCookie ∨ (e.cookie = 0 ∧
          e.actions = [Action.conntrack 0 6 0
            (some GROUP_MAP_TABLE_ID)]))) ∧
    (pc.direction = .dirOut →
      (∃ e ∈ (ruleFlows addL34 sys it et ait aet gid pc).2,
        e.ctStateM = some (CT_TRACKED ||| CT_NEW, CT_TRACKED ||| CT_NEW) ∧
        e.cookie = pc.ruleCookie ∧
        e.actions = (if sys then []
          else Action.conntrack CT_COMMIT 6 0 none ::
            (if pc.log then [Action.permitLog et EXP_DROP_TABLE_ID
              pc.ruleCookie] else [])) ++ [Action.go aet]) ∧
      (∃ e ∈ (ruleFlows addL34 sys it et ait aet gid pc).2,
        e.ctStateM = some (0, CT_TRACKED) ∧ e.cookie = pc.ruleCookie ∧
        e.actions = [Action.conntrack 0 6 0 (some GROUP_MAP_TABLE_ID)]) ∧
      (∃ e ∈ (ruleFlows addL34 sys it et ait aet gid pc).2,
        e.ctStateM = some (CT_TRACKED ||| CT_ESTABLISHED,
          CT_TRACKED ||| CT_ESTABLISHED) ∧ e.cookie = pc.ruleCookie ∧
        e.actions = (if pc.log then [Action.permitLog et EXP_DROP_TABLE_ID
          pc.ruleCookie] else []) ++ [Action.go aet]) ∧
      (∃ e ∈ (ruleFlows addL34 sys it et ait aet gid pc).1,
        e.cookie = 0 ∧ e.ctStateM = some (0, CT_TRACKED) ∧
        e.actions = [Action.conntrack 0 6 0 (some GROUP_MAP_TABLE_ID)]) ∧
      (∃ e ∈ (ruleFlows addL34 sys it et ait aet gid pc).1,
        e.cookie = pc.ruleCookie ∧ e.ctStateM = some revAllowCtState ∧
        e.actions = (if pc.log then [Action.permitLog it EXP_DROP_TABLE_ID
          pc.ruleCookie] else []) ++ [Action.go ait]) ∧
      ((pc.l24Classifier.etherT.getD 0 = ethertype_IPV4 ∨
        pc.l24Classifier.etherT.getD 0 = ethertype_IPV6) →
        ∃ e ∈ (ruleFlows addL34 sys it et ait aet gid pc).1,
          e.cookie = pc.ruleCookie ∧
          e.ctStateM = some revRelatedCtState ∧
          e.ethTypeM = some (pc.l24Classifier.etherT.getD 0) ∧
          e.protoM = none ∧ e.tpSrcM = none ∧ e.tpDstM = none ∧
          e.actions = [Action.go ait]) ∧
      (∀ e ∈ (ruleFlows addL34 sys it et ait aet gid pc).2,
        e.cookie = pc.ruleCookie) ∧
      (∀ e ∈ (ruleFlows addL34 sys it et ait aet gid pc).1,
        e.cookie = pc.ruleCookie ∨ (e.cookie = 0 ∧
          e.actions = [Action.conntrack 0 6 0
            (some GROUP_MAP_TABLE_ID)]))) := by
  obtain ⟨ss0, hss0, hfam0⟩ := hfwd
  have hnb : ¬ (pc.remoteSubnets = [] ∧ pc.namedServicePorts = []) := by
    rintro ⟨h1, h2⟩
    rw [h1] at hss0
    simp at hss0
  constructor
  · intro hdir
    have heq : ruleFlows addL34 sys it et ait aet gid pc =
      (add_classifier_entries pc.l24Classifier .CA_REFLEX_FWD pc.log
          (some pc.remoteSubnets) none none ait it EXP_DROP_TABLE_ID
          pc.priority OFPUTIL_FF_SEND_FLOW_REM pc.ruleCookie gid 0 sys ++
        (add_classifier_entries pc.l24Classifier .CA_REFLEX_FWD_TRACK pc.log
          (some pc.remoteSubnets) none none GROUP_MAP_TABLE_ID it
          EXP_DROP_TABLE_ID pc.priority OFPUTIL_FF_SEND_FLOW_REM
          pc.ruleCookie gid 0 sys ++
         add_classifier_entries pc.l24Classifier .CA_REFLEX_FWD_EST pc.log
          (some pc.remoteSubnets) none none ait it EXP_DROP_TABLE_ID
          pc.priority OFPUTIL_FF_SEND_FLOW_REM pc.ruleCookie gid 0 sys),
       add_classifier_entries pc.l24Classifier .CA_REFLEX_REV_TRACK pc.log
          none (some pc.remoteSubnets) (some pc.namedServicePorts)
          GROUP_MAP_TABLE_ID et EXP_DROP_TABLE_ID pc.priority
          OFPUTIL_FF_SEND_FLOW_REM 0 gid 0 sys ++
        (add_classifier_entries pc.l24Classifier .CA_REFLEX_REV_ALLOW pc.log
          none (some pc.remoteSubnets) (some pc.namedServicePorts) aet et
          EXP_DROP_TABLE_ID pc.priority OFPUTIL_FF_SEND_FLOW_REM
          pc.ruleCookie gid 0 sys ++
         add_classifier_entries pc.l24Classifier .CA_REFLEX_REV_RELATED
          pc.log none (some pc.remoteSubnets) (some pc.namedServicePorts)
          aet et EXP_DROP_TABLE_ID pc.priority OFPUTIL_FF_SEND_FLOW_REM
          pc.ruleCookie gid 0 sys)) := by
      simp [ruleFlows, hallow, hct, hdir, hnb]
    have hF := reflex_fwd_triple_props pc.l24Classifier pc.log sys
      pc.ruleCookie gid pc.priority OFPUTIL_FF_SEND_FLOW_REM it ait
      (some pc.remoteSubnets) none none ⟨ss0, hss0, hfam0⟩
      ⟨subnetToSvcPort ALL_subnet,
        by simp [effDestSvcPortsOf, compute_eff_sub], rfl⟩
    have hR := reflex_rev_triple_props pc.l24Classifier pc.log sys
      pc.ruleCookie gid pc.priority OFPUTIL_FF_SEND_FLOW_REM et aet
      none (some pc.remoteSubnets) (some pc.namedServicePorts)
      (by simp [compute_eff_sub])
      (List.ne_nil_of_mem (List.mem_append_left _
        (List.mem_map_of_mem _ hss0)))
    rw [heq]
    exact ⟨hF.1, hF.2.1, hF.2.2.1, hR.1, hR.2.1, hR.2.2.1, hF.2.2.2,
      hR.2.2.2⟩
  · intro hdir
    have heq : ruleFlows addL34 sys it et ait aet gid pc =
      (add_classifier_entries pc.l24Classifier .CA_REFLEX_REV_TRACK pc.log
          (some pc.remoteSubnets) none none GROUP_MAP_TABLE_ID it
          EXP_DROP_TABLE_ID pc.priority OFPUTIL_FF_SEND_FLOW_REM 0 gid 0
          sys ++
        (add_classifier_entries pc.l24Classifier .CA_REFLEX_REV_ALLOW pc.log
          (some pc.remoteSubnets) none none ait it EXP_DROP_TABLE_ID
          pc.priority OFPUTIL_FF_SEND_FLOW_REM pc.ruleCookie gid 0 sys ++
         add_classifier_entries pc.l24Classifier .CA_REFLEX_REV_RELATED
          pc.log (some pc.remoteSubnets) none none ait it EXP_DROP_TABLE_ID
          pc.priority OFPUTIL_FF_SEND_FLOW_REM pc.ruleCookie gid 0 sys),
       add_classifier_entries pc.l24Classifier .CA_REFLEX_FWD pc.log
          none (some pc.remoteSubnets) (some pc.namedServicePorts) aet et
          EXP_DROP_TABLE_ID pc.priority OFPUTIL_FF_SEND_FLOW_REM
          pc.ruleCookie gid 0 sys ++
        (add_classifier_entries pc.l24Classifier .CA_REFLEX_FWD_TRACK pc.log
          none (some pc.remoteSubnets) (some pc.namedServicePorts)
          GROUP_MAP_TABLE_ID et EXP_DROP_TABLE_ID pc.priority
          OFPUTIL_FF_SEND_FLOW_REM pc.ruleCookie gid 0 sys ++
         add_classifier_entries pc.l24Classifier .CA_REFLEX_FWD_EST pc.log
          none (some pc.remoteSubnets) (some pc.namedServicePorts) aet et
          EXP_DROP_TABLE_ID pc.priority OFPUTIL_FF_SEND_FLOW_REM
          pc.ruleCookie gid 0 sys)) := by
      simp [ruleFlows, hallow, hct, hdir, hnb]
    have hF := reflex_fwd_triple_props pc.l24Classifier pc.log sys
      pc.ruleCookie gid pc.priority OFPUTIL_FF_SEND_FLOW_REM et aet
      none (some pc.remoteSubnets) (some pc.namedServicePorts)
      ⟨ALL_subnet, by simp [compute_eff_sub], rfl⟩
      ⟨subnetToSvcPort ss0, List.mem_append_left _
        (List.mem_map_of_mem _ hss0), hfam0⟩
    have hR := reflex_rev_triple_props pc.l24Classifier pc.log sys
      pc.ruleCookie gid pc.priority OFPUTIL_FF_SEND_FLOW_REM it ait
      (some pc.remoteSubnets) none none
      (List.ne_nil_of_mem hss0)
      (by simp [effDestSvcPortsOf, compute_eff_sub])
    rw [heq]
    exact ⟨hF.1, hF.2.1, hF.2.2.1, hR.1, hR.2.1, hR.2.2.1, hF.2.2.2,
      hR.2.2.2⟩

/-- A concrete allow + REFLEXIVE + direction-IN rule with one IPv4
remote subnet. -/
def c1CounterRule : PolicyRule :=
  { direction := .dirIn, allow := true, log := false, priority := 100,
    l24Classifier :=
      { etherT := some ethertype_IPV4,
        connectionTracking := some conntrack_REFLEXIVE },
    remoteSubnets := [(some (Addr.v4 167772160), 24)],
    namedServicePorts := [], ruleCookie := 77 }

/-- C1 counterexample: for a reflexive IN rule the CA_REFLEX_FWD_TRACK
entry on the ingress list (the only ingress entry matching ct_state
(0, tracked)) recirculates through conntrack to the GROUP_MAP table, not
to the ingress table as the claim states. -/
theorem c1_counterexample :
    (∃ e ∈ (ruleFlows false false SEC_GROUP_IN_TABLE_ID
        SEC_GROUP_OUT_TABLE_ID TAP_TABLE_ID TAP_TABLE_ID 5
        c1CounterRule).1,
      e.ctStateM = some (0, CT_TRACKED)) ∧
    (∀ e ∈ (ruleFlows false false SEC_GROUP_IN_TABLE_ID
        SEC_GROUP_OUT_TABLE_ID TAP_TABLE_ID TAP_TABLE_ID 5
        c1CounterRule).1,
      e.ctStateM = some (0, CT_TRACKED) →
        e.actions = [Action.conntrack 0 6 0 (some GROUP_MAP_TABLE_ID)] ∧
        GROUP_MAP_TABLE_ID ≠ SEC_GROUP_IN_TABLE_ID) := by decide

theorem c1_reflexive_rule_quintet_witness :
    (∃ e ∈ (ruleFlows false false SEC_GROUP_IN_TABLE_ID
        SEC_GROUP_OUT_TABLE_ID TAP_TABLE_ID TAP_TABLE_ID 5
        c1CounterRule).1,
      e.ctStateM = some (0, CT_TRACKED) ∧ e.cookie = c1CounterRule.ruleCookie ∧
      e.actions = [Action.conntrack 0 6 0 (some GROUP_MAP_TABLE_ID)]) ∧
    (∃ e ∈ (ruleFlows false false SEC_GROUP_IN_TABLE_ID
        SEC_GROUP_OUT_TABLE_ID TAP_TABLE_ID TAP_TABLE_ID 5
        c1CounterRule).2,
      e.cookie = 0 ∧ e.ctStateM = some (0, CT_TRACKED) ∧
      e.actions = [Action.conntrack 0 6 0 (some GROUP_MAP_TABLE_ID)]) :=
  ⟨((c1_reflexive_rule_quintet false false SEC_GROUP_IN_TABLE_ID
      SEC_GROUP_OUT_TABLE_ID TAP_TABLE_ID TAP_TABLE_ID 5 c1CounterRule
      (by decide) (by decide) (by decide)).1 (by decide)).2.1,
   ((c1_reflexive_rule_quintet false false SEC_GROUP_IN_TABLE_ID
      SEC_GROUP_OUT_TABLE_ID TAP_TABLE_ID TAP_TABLE_ID 5 c1CounterRule
      (by decide) (by decide) (by decide)).1 (by decide)).2.2.2.1⟩

end Abfp
